import Mathlib

set_option maxRecDepth 100000

/-!
Verification of the spreadsheet-report scripts of this repository.

The scripts build in-memory workbooks with openpyxl and save them once. This
development embeds the construction phase: a `Sheet` records its cells (keyed by
1-based row and column), attached charts, column widths and the freeze-panes
anchor; a `Workbook` is its list of sheets. A cell carries its value, number
format and fill; fonts, borders, alignment and merged ranges are presentation
details that no property below depends on and are not modelled. Where a script
assigns a cell's value and then its style attributes in consecutive statements,
the embedding writes the resulting cell state in one step.

The spec's `ReportBuilder` operations (`write_table`, `add_sheet`,
`attach_chart`) do not exist as functions in the source tree - the scripts
inline their success paths as ad-hoc loops over openpyxl. Those operations are
modelled from the spec here, with the success path of `write_table` taken from
the shared write loops of the scripts.
-/

/-- A cell value: text (including formula strings, which the scripts emit
verbatim and never evaluate), an integer, an exact decimal `mantissa / 10 ^ exp`
(the scripts write only the literals 0.05 and 0.6), or an empty cell. -/
inductive Value where
  | str (s : String)
  | int (n : Int)
  | dec (mantissa : Int) (exp : Nat)
  | empty
deriving DecidableEq

/-- A solid fill as produced by openpyxl's
`PatternFill(start_color=c, end_color=c, fill_type="solid")`. -/
structure Fill where
  startColor : String
  endColor : String
  fillType : String
deriving DecidableEq

/-- The solid fill with the given start and end color. -/
def solidFill (c : String) : Fill := { startColor := c, endColor := c, fillType := "solid" }

/-- The per-cell state tracked by the model: value, number format, fill. -/
structure CellData where
  value : Value
  numFmt : Option String := none
  fill : Option Fill := none
deriving DecidableEq

/-- A rectangular cell range, as built by openpyxl's
`Reference(ws, min_col, min_row, max_col, max_row)`; when `max_col` is omitted
at the call site it defaults to `min_col`. -/
structure Ref where
  minCol : Nat
  minRow : Nat
  maxCol : Nat
  maxRow : Nat
deriving DecidableEq

/-- A chart specification: kind, title, data range and categories range. -/
structure ChartSpec where
  kind : String
  title : String
  data : Ref
  cats : Ref
deriving DecidableEq

/-- A sheet: name, association list of cells keyed by (row, column) with the
most recent write first, attached charts with their anchor cells, per-column
width overrides, and the freeze-panes anchor. -/
structure Sheet where
  name : String
  cells : List ((Nat × Nat) × CellData) := []
  charts : List (ChartSpec × String) := []
  colWidths : List (Nat × Nat) := []
  freezePanes : Option String := none
deriving DecidableEq

/-- A workbook: its sheets in order. -/
structure Workbook where
  sheets : List Sheet := []
deriving DecidableEq

/-- Looks a cell up in an association list of cells (first match wins, so the
newest write shadows older ones). -/
def lookupCell : List ((Nat × Nat) × CellData) → Nat → Nat → Option CellData
  | [], _, _ => none
  | (k, d) :: t, r, c => if k = (r, c) then some d else lookupCell t r c

/-- The current state of the cell at row `r`, column `c` (1-based, as in openpyxl). -/
def getCell (s : Sheet) (r c : Nat) : Option CellData :=
  lookupCell s.cells r c

/-- Writes the cell at row `r`, column `c`, replacing any previous state. -/
def setCell (s : Sheet) (r c : Nat) (d : CellData) : Sheet :=
  { s with cells := ((r, c), d) :: s.cells }

/-- Mirrors `ws.cell(row, column).fill = f` on its own: keeps the rest of the
cell's state (openpyxl materialises an empty cell when none exists yet). -/
def setFill (s : Sheet) (r c : Nat) (f : Fill) : Sheet :=
  match getCell s r c with
  | some d => setCell s r c { d with fill := some f }
  | none => setCell s r c { value := .empty, fill := some f }

/-- Mirrors `ws.cell(row, column).number_format = fmt` on its own. -/
def setNumFmt (s : Sheet) (r c : Nat) (fmt : String) : Sheet :=
  match getCell s r c with
  | some d => setCell s r c { d with numFmt := some fmt }
  | none => setCell s r c { value := .empty, numFmt := some fmt }

/-- Does row `r` hold any cell? -/
def rowPopulated (s : Sheet) (r : Nat) : Bool :=
  s.cells.any (fun e => e.1.1 == r)

/-- Counts the populated rows among `r0, r0 + 1, ..., r0 + n - 1`. -/
def populatedInRange (s : Sheet) (r0 n : Nat) : Nat :=
  (List.range n).countP (fun i => rowPopulated s (r0 + i))

/-- Error taxonomy of the spec's ReportBuilder (§7); `IOError` concerns the save
step, which is outside the constructed-workbook model. -/
inductive BuilderError where
  | RowShapeError
  | DuplicateNameError
deriving DecidableEq

/-- Writes one row of plain value cells starting at `(r, c)`: the inner
`for col_num, value in enumerate(row_data, c)` loop shared by the scripts. -/
def writeRow : Sheet → Nat → Nat → List Value → Sheet
  | s, _, _, [] => s
  | s, r, c, v :: vs => writeRow (setCell s r c { value := v }) r (c + 1) vs

/-- Writes the given rows one beneath another starting at row `r`: the outer
`for row_num, row_data in enumerate(data, r)` loop shared by the scripts. -/
def writeRows : Sheet → Nat → Nat → List (List Value) → Sheet
  | s, _, _, [] => s
  | s, r, c, row :: rest => writeRows (writeRow s r c row) (r + 1) c rest

/-- Modelled from the spec: `write_table` (§4.1) is missing from the source tree
as a function - the scripts inline its success path as the header/data write
loops (create-cyber-essentials-excel.py lines 39-45 and 154-159,
create-pricing-excel-v2.py lines 184-195), which is what the `then` branch
applies. Per the spec it writes the header row at the anchor and each data row
beneath it, and fails with `RowShapeError`, writing nothing (all-or-nothing),
if any row's length differs from the header count. -/
def writeTable (s : Sheet) (anchor : Nat × Nat) (headers : List Value)
    (rows : List (List Value)) : Sheet × Option BuilderError :=
  if rows.all (fun row => row.length == headers.length) then
    (writeRows (writeRow s anchor.1 anchor.2 headers) (anchor.1 + 1) anchor.2 rows, none)
  else
    (s, some .RowShapeError)

/-- Modelled from the spec: `add_sheet` (§4.1) is missing from the source tree -
the scripts call openpyxl's `wb.create_sheet(name)` directly, always with fresh
names. Per the spec it appends a fresh sheet after all existing ones and fails
with `DuplicateNameError`, leaving the workbook unchanged, if the name already
exists in the workbook. -/
def addSheet (wb : Workbook) (name : String) : Workbook × Option BuilderError :=
  if wb.sheets.any (fun sh => sh.name == name) then
    (wb, some .DuplicateNameError)
  else
    ({ sheets := wb.sheets ++ [{ name := name }] }, none)

/-- Modelled from the spec: `attach_chart` (§4.1) is missing from the source
tree - the scripts call openpyxl's `ws.add_chart(chart, anchor)` directly.
Mirroring that call, it appends the chart to the sheet's chart list and touches
no cell (the builder does not re-read cell contents to validate the ranges). -/
def addChart (s : Sheet) (ch : ChartSpec) (anchor : String) : Sheet :=
  { s with charts := s.charts ++ [(ch, anchor)] }

/-- Checks whether `needle` occurs at the head of `hay` (character lists). -/
def startsWithL : List Char → List Char → Bool
  | [], _ => true
  | _ :: _, [] => false
  | a :: as, b :: bs => a == b && startsWithL as bs

/-- Checks whether `needle` occurs contiguously anywhere in `hay`. -/
def hasSubstrL (needle : List Char) : List Char → Bool
  | [] => startsWithL needle []
  | c :: rest => startsWithL needle (c :: rest) || hasSubstrL needle rest

/-- The Python substring test `sub in hay` on strings, as used by the MEMA
script's status branch. -/
def pyContains (hay sub : String) : Bool :=
  hasSubstrL sub.data hay.data

/-- The `isinstance(value, int)` test on a cell value. -/
def isIntVal : Value → Bool
  | .int _ => true
  | _ => false

/-- The `value.startswith('=')` test on a string cell value. -/
def isFormulaStr : Value → Bool
  | .str t => t.startsWith "="
  | _ => false

/-- Python truthiness of a cell value combined with the source's explicit
`value != ''` check (create-pricing-excel-v2.py line 660). -/
def pyTruthy : Value → Bool
  | .str t => t != ""
  | .int n => n != 0
  | .dec m _ => m != 0
  | .empty => false

/-- An ambient environment a run could in principle observe: command line,
environment variables, clock. The scripts read none of these while constructing
their workbooks (spec §6: no config file, no CLI flags, no environment
variables), which the determinism theorem makes exact. -/
structure Env where
  argv : List String
  envVars : List (String × String)
  clock : Nat

/-- The spec's ConditionalFill application (§3): the fill of the first mapping
entry whose key equals the cell's literal value, otherwise none (keep the
default body fill). -/
def condFillLookup (m : List (String × Fill)) (v : String) : Option Fill :=
  (m.find? (fun p => p.1 == v)).map (fun p => p.2)
namespace CE

def headers : List String := [
  "Section",
  "Q No.",
  "Question",
  "Guidance",
  "Answer Type",
  "Draft Answer",
  "Status"]

def data : List (List String) := [
  ["A1 - Organisation", "A1.1", "What is your organisation's name?", "Name displayed on certificate (max 150 chars)", "Notes", "TBC", "Pending"],
  ["A1 - Organisation", "A1.2", "What type of organisation are you?", "LTD/LLP/CIC/COP/MTL/CHA/GOV/SOL/PRT/SOC/OTH", "Multiple choice", "TBC", "Pending"],
  ["A1 - Organisation", "A1.3", "What is your organisation's registration number?", "Companies House number or 'none'", "Notes", "TBC", "Pending"],
  ["A1 - Organisation", "A1.4", "What is your organisation's address?", "Legal registered address", "Notes", "TBC", "Pending"],
  ["A1 - Organisation", "A1.5", "What is your main business?", "Select from list - likely Finance or IT", "Multiple choice", "TBC", "Pending"],
  ["A1 - Organisation", "A1.6", "What is your website address?", "Website or LinkedIn/Facebook page", "Notes", "https://plannetic.com", "Confirm"],
  ["A1 - Organisation", "A1.7", "Is this application a renewal or first time?", "Renewal or First Time Application", "Select", "First Time Application", "Confirm"],
  ["A1 - Organisation", "A1.8", "What are the two main reasons for applying?", "Select two reasons", "Multiple choice", "TBC - likely 'to give confidence to our customers' + 'to generally improve our security'", "Pending"],
  ["A1 - Organisation", "A1.9", "Have you read the CE Requirements document?", "", "Yes/No", "Yes", "Ready"],
  ["A1 - Organisation", "A1.10", "Can IASME contact you if you experience a breach?", "", "Yes/No", "TBC", "Pending"],
  ["A1 - Organisation", "A1.11", "Can IASME contact you for research purposes?", "", "Yes/No", "TBC", "Pending"],
  ["A2 - Scope", "A2.1", "Does the scope cover your whole organisation?", "Whole org = eligible for free insurance", "Yes/No", "Yes", "Confirm"],
  ["A2 - Scope", "A2.2", "Scope description (if not whole org)", "Only if A2.1 = No", "Notes", "N/A", "N/A"],
  ["A2 - Scope", "A2.3", "Geographical locations in scope", "List locations or 'All UK offices'", "Notes", "All UK locations including home/remote working locations for all staff.", "Ready"],
  ["A2 - Scope", "A2.4", "Laptops/desktops/virtual desktops (qty + make + OS)", "Must include make and OS version", "Notes", "1 x Apple Mac laptop running macOS 26.1 (Build 25B78)", "Ready - add more if needed"],
  ["A2 - Scope", "A2.4.1", "Thin clients (qty + make + OS)", "", "Notes", "None", "Ready"],
  ["A2 - Scope", "A2.5", "Servers/virtual servers/hypervisors/VDI", "", "Notes", "None - all infrastructure is cloud-hosted via Vercel (PaaS) and Supabase (PaaS).", "Ready"],
  ["A2 - Scope", "A2.6", "Tablets and mobile devices (qty + make + OS)", "", "Notes", "TBC", "Pending"],
  ["A2 - Scope", "A2.7", "Networks in scope (name + location + purpose)", "", "Notes", "Home/Remote Worker Networks - staff work from home using domestic broadband connections. All devices secured by software firewalls.", "Ready"],
  ["A2 - Scope", "A2.7.1", "How many staff are home or remote workers?", "", "Notes", "TBC", "Pending"],
  ["A2 - Scope", "A2.8", "Network equipment in scope (firewalls/routers - make + model)", "Must include make and model", "Notes", "All staff are remote workers using home broadband routers (various makes/models managed by ISPs). Software firewalls enabled on all endpoint devices. Staff do not have admin access to home routers.", "Ready"],
  ["A2 - Scope", "A2.9", "Cloud services (third party - SaaS/PaaS/IaaS)", "", "Notes", "Supabase (PaaS), Vercel (PaaS), GitHub (SaaS), Resend (SaaS), OpenSign (SaaS), Ordnance Survey (SaaS), DeepSeek (SaaS), Alpha Vantage (SaaS). [TBC: Add email/collab suite, password manager]", "Partial"],
  ["A2 - Scope", "A2.10", "Person responsible for managing IT (name + role)", "Must be org employee, not outsourced IT", "Notes", "TBC", "Pending"],
  ["A3 - Insurance", "A3.1", "UK/Crown Dependencies HQ and turnover < Â£20m?", "Eligibility for free insurance", "Yes/No", "Yes", "Confirm"],
  ["A3 - Insurance", "A3.2", "Opt out of insurance? (if A3.1 = Yes)", "", "Yes/No", "No - we wish to receive the included cyber insurance", "Ready"],
  ["A3 - Insurance", "A3.3", "Insurance contact email (if not opted out)", "", "Notes", "TBC", "Pending"],
  ["A4 - Firewalls", "A4.1", "Do you have firewalls at internet boundaries?", "", "Yes/No", "Yes", "Ready"],
  ["A4 - Firewalls", "A4.1.1", "Software firewalls enabled on all computers/laptops/servers?", "", "Yes/No", "Yes - we use the built-in macOS Application Firewall; it is enabled and kept enabled at all times, including on untrusted networks (home/public Wi-Fi).", "Ready"],
  ["A4 - Firewalls", "A4.1.2", "If A4.1.1 = No: list OS without firewall", "", "Notes", "N/A", "N/A"],
  ["A4 - Firewalls", "A4.2", "Default admin passwords changed on boundary firewalls?", "", "Yes/No", "Yes - for home workers, domestic routers managed by ISPs with unique passwords. Software firewalls protected by device credentials.", "Ready"],
  ["A4 - Firewalls", "A4.2.1", "Process for changing firewall password", "", "Notes", "Software firewalls protected by device login credentials. Password changes via System Settings > Users & Groups. Follows password policy (min 12 chars or MFA + 8 chars).", "Ready"],
  ["A4 - Firewalls", "A4.3", "Firewall password configuration option (A-E)", "A=MFA+8, B=Block common+8, C=12 chars, D=Passwordless, E=Other", "Select", "Option C - Minimum 12 characters, no maximum length", "Ready"],
  ["A4 - Firewalls", "A4.4", "Change firewall password when compromised?", "", "Yes/No", "Yes", "Ready"],
  ["A4 - Firewalls", "A4.5", "Process to manage firewall?", "", "Yes/No", "Yes", "Ready"],
  ["A4 - Firewalls", "A4.6", "Firewall rules reviewed in last 12 months?", "", "Notes", "Software firewalls use default secure settings blocking all incoming connections. No custom inbound rules. Verified during device setup and periodically checked. Cloud services manage own infrastructure firewalls.", "Ready"],
  ["A4 - Firewalls", "A4.7", "Firewall allows unauthenticated inbound connections?", "", "Yes/No", "No - all inbound blocked by default", "Ready"],
  ["A4 - Firewalls", "A4.8", "How inbound connections approved & documented", "", "Notes", "No inbound connections permitted to endpoints. All services via outbound to cloud. Any exception requires documented written approval from IT manager with business justification.", "Ready"],
  ["A4 - Firewalls", "A4.9", "Firewall admin interface accessible from internet?", "", "Yes/No", "No - only accessible locally via System Settings", "Ready"],
  ["A4 - Firewalls", "A4.10", "If A4.9 = Yes: documented business requirement?", "", "Yes/No", "N/A", "N/A"],
  ["A4 - Firewalls", "A4.11", "If A4.9 = Yes: MFA or IP allow list protection?", "", "Notes", "N/A", "N/A"],
  ["A5 - Secure Config", "A5.1", "Removed/disabled unnecessary software? (describe)", "", "Notes", "All devices configured with only business-required software. Staff instructed not to install unnecessary apps. macOS Gatekeeper prevents unsigned apps. Regular reviews to remove unused software.", "Ready"],
  ["A5 - Secure Config", "A5.2", "Only necessary user accounts exist?", "", "Yes/No", "Yes - only required accounts. Guest accounts disabled. Unused accounts removed promptly.", "Ready"],
  ["A5 - Secure Config", "A5.3", "Default/guessable passwords changed?", "", "Yes/No", "Yes - all default passwords changed to strong, unique passwords per password policy.", "Ready"],
  ["A5 - Secure Config", "A5.4", "Run/host external services with non-public data?", "", "Yes/No", "Yes - Plannetic platform accessed by authenticated users over internet, handles client financial data.", "Ready"],
  ["A5 - Secure Config", "A5.5", "If A5.4 = Yes: authentication option (A-E)", "", "Select", "Option A - MFA with min 8 char password. Plannetic uses Supabase Auth with MFA (TOTP).", "Ready"],
  ["A5 - Secure Config", "A5.6", "If A5.4 uses passwords: process to change on compromise", "", "Notes", "1) User notified, must change password; 2) Sessions terminated via Supabase admin; 3) MFA verified/re-enrolled; 4) Incident logged and reviewed.", "Ready"],
  ["A5 - Secure Config", "A5.7", "If A5.4 = Yes and not MFA: brute force protection (A-C)", "", "Select", "Option A - Throttling. Supabase Auth rate limiting + account lockout after failed attempts.", "Ready"],
  ["A5 - Secure Config", "A5.8", "Auto-run/execute disabled?", "", "Yes/No", "Yes - macOS doesn't auto-run from external media. Users prompted before opening downloads. Gatekeeper prevents unsigned auto-run.", "Ready"],
  ["A5 - Secure Config", "A5.9", "Device locking enabled?", "", "Yes/No", "Yes - all devices require authentication", "Ready"],
  ["A5 - Secure Config", "A5.10", "If A5.9 = Yes: device unlock method(s)", "", "Notes", "macOS: Touch ID biometric with password fallback (min 8 chars). Auto-lock after inactivity. Password/biometric on wake.", "Ready"],
  ["A6 - Updates", "A6.1", "All OS supported and receiving updates?", "", "Yes/No", "Yes - macOS 26.1 (Tahoe) fully supported by Apple.", "Ready"],
  ["A6 - Updates", "A6.2", "All software supported with vulnerability fixes?", "", "Yes/No", "Yes - all software licensed and receiving updates.", "Ready"],
  ["A6 - Updates", "A6.2.1", "Browsers (name + version)", "", "Notes", "Google Chrome 143.0.7499.110, Mozilla Firefox 146.0, Microsoft Edge 143.0.3650.80, Safari 26.1", "Ready"],
  ["A6 - Updates", "A6.2.2", "Malware protection software (name + version)", "", "Notes", "macOS: XProtect (built-in, auto-updating) + Gatekeeper + MRT", "Ready"],
  ["A6 - Updates", "A6.2.3", "Email applications (name + version)", "", "Notes", "Apple Mail 16.0, web-based email via browser", "Ready"],
  ["A6 - Updates", "A6.2.4", "Office applications (name + version)", "", "Notes", "Apple Pages 14.4, Apple Numbers 14.4, Apple Keynote 14.4, Microsoft OneNote 16.104", "Ready"],
  ["A6 - Updates", "A6.3", "Any unlicensed/unsupported software?", "", "Yes/No", "No", "Ready"],
  ["A6 - Updates", "A6.3.1", "If A6.3 = Yes: list unsupported/unlicensed", "", "Notes", "N/A", "N/A"],
  ["A6 - Updates", "A6.4", "Critical OS/firmware updates within 14 days?", "", "Yes/No", "Yes - all high/critical updates applied within 14 days. Auto-updates enabled.", "Ready"],
  ["A6 - Updates", "A6.4.1", "OS updates via auto-updates?", "", "Yes/No", "Yes - macOS automatic updates enabled", "Ready"],
  ["A6 - Updates", "A6.4.2", "If not auto: how ensure within 14 days", "", "Notes", "Auto-updates primary mechanism. Monitor vendor release notes, manually trigger if not auto-applied within 7 days.", "Ready"],
  ["A6 - Updates", "A6.5", "Critical application updates within 14 days?", "", "Yes/No", "Yes", "Ready"],
  ["A6 - Updates", "A6.5.1", "App updates via auto-updates?", "", "Yes/No", "Yes - App Store auto-updates, browser auto-updates, Microsoft AutoUpdate", "Ready"],
  ["A6 - Updates", "A6.5.2", "If not auto: how ensure within 14 days", "", "Notes", "Auto-updates primary. Staff trained to accept prompts. Periodic compliance checks.", "Ready"],
  ["A6 - Updates", "A6.6", "Remove unsupported software when EOL?", "", "Yes/No", "Yes", "Ready"],
  ["A6 - Updates", "A6.7", "If unsupported needed: moved out of scope?", "", "Notes", "Not applicable - no unsupported software used.", "Ready"],
  ["A7 - Access Control", "A7.1", "User account creation approval process", "", "Notes", "1) Manager requests; 2) IT verifies & determines role; 3) Account created with min permissions; 4) User receives password setup link; 5) MFA mandatory before first access.", "Ready"],
  ["A7 - Access Control", "A7.2", "Unique credentials for all accounts?", "", "Yes/No", "Yes - all users have unique credentials. Sharing prohibited.", "Ready"],
  ["A7 - Access Control", "A7.3", "Leaver process (disable/delete accounts)", "", "Notes", "1) HR notifies IT of leaving date; 2) On leaving: accounts disabled, access revoked, device wiped; 3) Confirmed within 24 hours.", "Ready"],
  ["A7 - Access Control", "A7.4", "Least privilege process", "", "Notes", "RBAC in Plannetic: Admin, Advisor, Compliance, Support, Client roles. Access reviewed on role change. Periodic access reviews.", "Ready"],
  ["A7 - Access Control", "A7.5", "Admin access granting process", "", "Notes", "1) Written request with justification; 2) Director approval; 3) Separate admin account; 4) Documented in register; 5) Quarterly review.", "Ready"],
  ["A7 - Access Control", "A7.6", "Separate admin accounts for admin tasks", "", "Notes", "Admin tasks use dedicated accounts. Cloud: separate admin with MFA. Devices: standard user for daily work, separate admin for config.", "Ready"],
  ["A7 - Access Control", "A7.7", "Prevent admin accounts for web/email", "", "Notes", "Admin accounts not configured with email. Training that admin not for browsing. Cloud admin logged out after use.", "Ready"],
  ["A7 - Access Control", "A7.8", "Track who has admin accounts?", "", "Yes/No", "Yes - admin access register maintained", "Ready"],
  ["A7 - Access Control", "A7.9", "Review admin access regularly?", "", "Yes/No", "Yes - quarterly review. Unused privileges removed.", "Ready"],
  ["A7 - Access Control", "A7.10", "Brute-force protection for passwords", "", "Notes", "Supabase: rate limiting + lockout. macOS: throttling. Cloud services: vendor protection + MFA.", "Ready"],
  ["A7 - Access Control", "A7.11", "Technical controls for password quality", "", "Notes", "Min 8 chars with MFA (Supabase). Min 12 chars without MFA. No max length. Common password blocking where supported.", "Ready"],
  ["A7 - Access Control", "A7.12", "How support unique/strong passwords", "", "Notes", "Password manager recommended. Three random words training. No regular expiry. No complexity requirements. No reuse training.", "Ready"],
  ["A7 - Access Control", "A7.13", "Compromised password/account process?", "", "Yes/No", "Yes - report, force reset, terminate sessions, re-verify MFA, review incident.", "Ready"],
  ["A7 - Access Control", "A7.14", "All cloud services have MFA available?", "", "Yes/No", "Yes - Supabase, Vercel, GitHub, Resend all have MFA. [Confirm: OpenSign, Alpha Vantage, Ordnance Survey]", "Partial"],
  ["A7 - Access Control", "A7.15", "If A7.14 = No: list services without MFA", "", "Notes", "N/A", "N/A"],
  ["A7 - Access Control", "A7.16", "MFA applied to all cloud admins?", "", "Yes/No", "Yes - MFA mandatory for all admin accounts", "Ready"],
  ["A7 - Access Control", "A7.17", "MFA applied to all cloud users?", "", "Yes/No", "Yes - MFA mandatory for all users", "Ready"],
  ["A8 - Malware", "A8.1", "Malware protection method(s) (A/B/C)", "A=Anti-malware, B=Allow-listing, C=Other", "Select", "Both A and B: Anti-malware (XProtect, Gatekeeper) + Allow-listing (Gatekeeper code signing, App Store)", "Ready"],
  ["A8 - Malware", "A8.2", "If Option A: anti-malware updates + blocks malware?", "", "Yes/No", "Yes - XProtect auto-updates. Gatekeeper prevents execution. MRT removes detected malware.", "Ready"],
  ["A8 - Malware", "A8.3", "If Option A: scans/warns on malicious sites?", "", "Yes/No", "Yes - Safari Fraudulent Warning, Chrome Safe Browsing, Firefox protection, Edge SmartScreen", "Ready"],
  ["A8 - Malware", "A8.4", "If Option B: users restricted from unsigned apps?", "", "Yes/No", "Yes - Gatekeeper blocks unsigned apps. Cannot run without admin intervention.", "Ready"],
  ["A8 - Malware", "A8.5", "If Option B: only approved apps + list maintained?", "", "Yes/No", "Yes - staff instructed on approved apps. List maintained. New requests need approval.", "Ready"]
]

def column_widths : List Nat := [18, 8, 50, 40, 15, 60, 12]

def pending_items : List String := [
  "A1.1 - Organisation name",
  "A1.2 - Organisation type",
  "A1.3 - Registration number",
  "A1.4 - Registered address",
  "A1.5 - Main business",
  "A1.8 - Reasons for certification",
  "A1.10/A1.11 - Contact permissions",
  "A2.6 - Mobile devices",
  "A2.7.1 - Remote workers count",
  "A2.10 - IT responsible person",
  "A3.3 - Insurance contact email"]

end CE

namespace MEMA

def headers : List String := [
  "Section",
  "Q No.",
  "Question",
  "Your Answer",
  "Status"]

def data : List (List String) := [
  ["A1 Organisation", "A1.1", "Organisation name", "MEMA Financial Services Ltd", "Ready"],
  ["A1 Organisation", "A1.2", "Organisation type", "LTD - Limited Company", "Ready"],
  ["A1 Organisation", "A1.3", "Registration number", "15382445", "Ready"],
  ["A1 Organisation", "A1.4", "Registered address", "34-35 Hatton Garden, London, England, EC1N 8DX", "Ready"],
  ["A1 Organisation", "A1.5", "Main business", "IT", "Ready"],
  ["A1 Organisation", "A1.6", "Website address", "https://plannetic.com", "Ready"],
  ["A1 Organisation", "A1.7", "Renewal or first time", "First Time Application", "Ready"],
  ["A1 Organisation", "A1.8", "Two main reasons for applying", "Primary: To give confidence to our customers\nSecondary: To generally improve our security", "Ready"],
  ["A1 Organisation", "A1.9", "Read CE Requirements document?", "Yes", "Ready"],
  ["A1 Organisation", "A1.10", "IASME breach contact permission", "No", "Ready"],
  ["A1 Organisation", "A1.11", "IASME research contact permission", "No", "Ready"],
  ["A2 Scope", "A2.1", "Whole organisation in scope?", "Yes", "Ready"],
  ["A2 Scope", "A2.2", "Scope description (if not whole org)", "N/A - whole organisation in scope", "N/A"],
  ["A2 Scope", "A2.3", "Geographical locations in scope", "All UK locations. MEMA Financial Services operates fully remotely with 2 home-based employees.", "Ready"],
  ["A2 Scope", "A2.4", "Laptops/desktops (qty + make + OS)", "2 laptops:\n- 1 x Apple MacBook Pro running macOS 26.1\n- 1 x Dell laptop running Windows 11", "Ready"],
  ["A2 Scope", "A2.4.1", "Thin clients", "None", "Ready"],
  ["A2 Scope", "A2.5", "Servers/virtual servers/hypervisors/VDI", "None - all infrastructure is cloud-hosted via AWS (Vercel) and Supabase (PaaS).", "Ready"],
  ["A2 Scope", "A2.6", "Tablets and mobile devices", "1 x Samsung mobile phone running Android 15", "Ready"],
  ["A2 Scope", "A2.7", "Networks in scope", "Home/Remote Worker Networks - both employees work from home using domestic broadband connections. All devices are secured by software firewalls (macOS Application Firewall and Windows Defender Firewall).", "Ready"],
  ["A2 Scope", "A2.7.1", "Remote workers count", "2 - all employees are home/remote workers", "Ready"],
  ["A2 Scope", "A2.8", "Network equipment (firewalls/routers)", "All staff are remote workers using home broadband routers (various makes/models managed by ISPs). Software firewalls are enabled on all endpoint devices. Staff do not have administrative access to home routers.", "Ready"],
  ["A2 Scope", "A2.9", "Cloud services (third party)", "- Supabase (PaaS) - Database and authentication\n- Vercel/AWS (PaaS) - Application hosting\n- GitHub (SaaS) - Source code repository\n- Google Workspace (SaaS) - Email and collaboration\n- 1Password (SaaS) - Password management\n- Resend (SaaS) - Email delivery\n- OpenSign (SaaS) - Document signing\n- Ordnance Survey (SaaS) - UK address lookup API\n- DeepSeek (SaaS) - AI/LLM API\n- Alpha Vantage (SaaS) - Financial data API", "Ready"],
  ["A2 Scope", "A2.10", "Person responsible for IT", "Ade Omosanya, Director", "Ready"],
  ["A3 Insurance", "A3.1", "UK HQ and turnover < £20m?", "Yes", "Ready"],
  ["A3 Insurance", "A3.2", "Opt out of insurance?", "No - we wish to receive the included cyber insurance", "Ready"],
  ["A3 Insurance", "A3.3", "Insurance contact email", "info@memaconsultants.com", "Confirm email"],
  ["A4 Firewalls", "A4.1", "Firewalls at internet boundaries?", "Yes", "Ready"],
  ["A4 Firewalls", "A4.1.1", "Software firewalls enabled on all devices?", "Yes - we use the built-in macOS Application Firewall and Windows Defender Firewall; both are enabled and kept enabled at all times, including on untrusted networks (home/public Wi-Fi).", "ACTION: Verify both firewalls are ON"],
  ["A4 Firewalls", "A4.1.2", "If no software firewall: list OS", "N/A", "N/A"],
  ["A4 Firewalls", "A4.2", "Default passwords changed on firewalls?", "Yes - for home workers, domestic routers are managed by ISPs with unique per-device passwords. Software firewalls are protected by device login credentials following our password policy.", "Ready"],
  ["A4 Firewalls", "A4.2.1", "Process for changing firewall password", "Software firewalls are protected by device login credentials. Password changes are performed via System Settings (macOS) or Windows Settings when required. Device passwords follow our policy of minimum 12 characters.", "Ready"],
  ["A4 Firewalls", "A4.3", "Firewall password configuration (A-E)", "Option C - Minimum 12 characters, no maximum length", "Ready"],
  ["A4 Firewalls", "A4.4", "Change password when compromised?", "Yes - if we know or suspect a device password has been compromised, we immediately change it and review for unauthorised access.", "Ready"],
  ["A4 Firewalls", "A4.5", "Process to manage firewall?", "Yes", "Ready"],
  ["A4 Firewalls", "A4.6", "Firewall rules reviewed in last 12 months?", "Software firewalls use default secure settings blocking all incoming connections. No custom inbound rules configured. Configuration verified during device setup and periodically checked. Cloud services (Vercel, Supabase) manage their own infrastructure firewalls.", "Ready"],
  ["A4 Firewalls", "A4.7", "Allows unauthenticated inbound?", "No - all inbound connections blocked by default on endpoint devices.", "Ready"],
  ["A4 Firewalls", "A4.8", "How inbound connections approved?", "No inbound connections permitted to endpoint devices. All services accessed via outbound connections to cloud platforms. Any exception would require documented written approval from the Director with clear business justification.", "Ready"],
  ["A4 Firewalls", "A4.9", "Admin interface accessible from internet?", "No - firewall settings only accessible locally via device System Settings.", "Ready"],
  ["A4 Firewalls", "A4.10", "If yes: documented business need?", "N/A", "N/A"],
  ["A4 Firewalls", "A4.11", "If yes: MFA or IP allow list?", "N/A", "N/A"],
  ["A5 Secure Config", "A5.1", "Removed unnecessary software?", "All devices configured with only business-required software. Staff instructed not to install unnecessary applications. macOS Gatekeeper and Windows SmartScreen prevent unsigned/untrusted applications. Regular reviews conducted to remove unused software.", "Ready"],
  ["A5 Secure Config", "A5.2", "Only necessary user accounts?", "Yes - only required user accounts exist on devices and cloud services. Guest accounts disabled. Unused accounts removed promptly.", "Ready"],
  ["A5 Secure Config", "A5.3", "Default passwords changed?", "Yes - all default passwords changed to strong, unique passwords managed via 1Password.", "Ready"],
  ["A5 Secure Config", "A5.4", "Run external services with non-public data?", "Yes - Plannetic is a web application accessed by authenticated IFA clients over the internet. It handles client financial and compliance data.", "Ready"],
  ["A5 Secure Config", "A5.5", "Authentication option (A-E)", "Option A - Multi-factor authentication with minimum 8 character password. Plannetic uses Supabase Auth with MFA (TOTP) for all users.", "Ready"],
  ["A5 Secure Config", "A5.6", "Process to change password on compromise", "1) User notified immediately and required to change password\n2) All sessions terminated via Supabase admin dashboard\n3) MFA verified/re-enrolled\n4) Incident logged and reviewed", "Ready"],
  ["A5 Secure Config", "A5.7", "Brute force protection (A-C)", "Option A - Throttling. Supabase Auth provides rate limiting and account lockout after failed attempts.", "Ready"],
  ["A5 Secure Config", "A5.8", "Auto-run disabled?", "Yes - macOS doesn't auto-run from external media. Windows SmartScreen blocks untrusted apps. Users prompted before opening downloads.", "Ready"],
  ["A5 Secure Config", "A5.9", "Device locking enabled?", "Yes - all devices require authentication to access.", "Ready"],
  ["A5 Secure Config", "A5.10", "Device unlock method", "macOS: Touch ID biometric with password fallback (min 8 chars)\nWindows: Windows Hello or password (min 12 chars)\nAndroid: Fingerprint/PIN (min 6 digits)", "Ready"],
  ["A6 Updates", "A6.1", "All OS supported?", "Yes - all devices run supported operating systems:\n- macOS 26.1 (Tahoe) - supported\n- Windows 11 - supported\n- Android 15 - supported", "Ready"],
  ["A6 Updates", "A6.2", "All software supported?", "Yes - all software licensed and receiving security updates.", "Ready"],
  ["A6 Updates", "A6.2.1", "Browsers (name + version)", "Google Chrome 143.0.7499.110\nMozilla Firefox 146.0\nMicrosoft Edge 143.0.3650.80\nSafari 26.1", "Ready"],
  ["A6 Updates", "A6.2.2", "Malware protection", "macOS: XProtect (built-in, auto-updating) + Gatekeeper + MRT\nWindows: Microsoft Defender Antivirus (built-in, auto-updating)", "Ready"],
  ["A6 Updates", "A6.2.3", "Email applications", "Google Workspace Gmail (web-based via browser)\nApple Mail 16.0 (macOS)", "Ready"],
  ["A6 Updates", "A6.2.4", "Office applications", "Google Workspace (Docs, Sheets, Slides - web-based)\nApple Pages 14.4, Numbers 14.4, Keynote 14.4\nMicrosoft OneNote 16.104", "Ready"],
  ["A6 Updates", "A6.3", "Any unlicensed/unsupported software?", "No", "Ready"],
  ["A6 Updates", "A6.3.1", "List unsupported/unlicensed", "N/A", "N/A"],
  ["A6 Updates", "A6.4", "Critical updates within 14 days?", "Yes - all high/critical security updates applied within 14 days. Automatic updates enabled on all devices.", "Ready"],
  ["A6 Updates", "A6.4.1", "OS auto-updates enabled?", "Yes - automatic updates enabled on both macOS and Windows devices.", "Ready"],
  ["A6 Updates", "A6.4.2", "If not auto: how ensure 14 days?", "Automatic updates are primary mechanism. Director monitors vendor release notes and manually triggers if not auto-applied within 7 days.", "Ready"],
  ["A6 Updates", "A6.5", "App updates within 14 days?", "Yes", "Ready"],
  ["A6 Updates", "A6.5.1", "App auto-updates enabled?", "Yes - App Store (macOS), Microsoft Store (Windows), Chrome/Firefox/Edge all have auto-updates enabled.", "Ready"],
  ["A6 Updates", "A6.5.2", "If not auto: how ensure 14 days?", "Auto-updates primary. Staff accept update prompts promptly. Periodic compliance checks by Director.", "Ready"],
  ["A6 Updates", "A6.6", "Remove unsupported when EOL?", "Yes - unsupported software removed when it reaches end-of-life.", "Ready"],
  ["A6 Updates", "A6.7", "Unsupported moved out of scope?", "Not applicable - no unsupported software used.", "Ready"],
  ["A7 Access Control", "A7.1", "Account creation approval process", "As a 2-person company, the Director (Ade Omosanya) approves all account creation. New accounts created with minimum necessary permissions. MFA enrollment mandatory before first access.", "Ready"],
  ["A7 Access Control", "A7.2", "Unique credentials?", "Yes - all users have unique credentials. Account sharing prohibited.", "Ready"],
  ["A7 Access Control", "A7.3", "Leaver process", "When an employee leaves: 1) All cloud service accounts immediately disabled/deleted 2) Device collected and wiped 3) Passwords to shared systems changed 4) Confirmed within 24 hours", "Ready"],
  ["A7 Access Control", "A7.4", "Least privilege", "Role-based access control (RBAC) implemented in Plannetic. Users granted minimum permissions for their role. Cloud service access limited to job requirements.", "Ready"],
  ["A7 Access Control", "A7.5", "Admin access process", "Director approval required for admin access. Separate admin accounts used. Access documented and reviewed quarterly.", "Ready"],
  ["A7 Access Control", "A7.6", "Separate admin accounts", "Admin tasks performed using dedicated accounts. Cloud platforms: separate admin accounts with MFA. Day-to-day work uses standard accounts.", "Ready"],
  ["A7 Access Control", "A7.7", "Prevent admin for email/browsing", "Admin accounts not used for email or browsing. Staff trained on this policy. Cloud admin sessions logged out after use.", "Ready"],
  ["A7 Access Control", "A7.8", "Track admin accounts?", "Yes - Director maintains record of all admin access.", "Ready"],
  ["A7 Access Control", "A7.9", "Review admin access regularly?", "Yes - reviewed quarterly. Unused privileges removed.", "Ready"],
  ["A7 Access Control", "A7.10", "Brute-force protection", "All systems protected:\n- 1Password: Account lockout\n- Google Workspace: Rate limiting + MFA\n- Supabase: Rate limiting + lockout\n- Device logins: Throttling after failed attempts", "Ready"],
  ["A7 Access Control", "A7.11", "Password quality controls", "Technical controls via 1Password and cloud providers:\n- Minimum 8 characters with MFA enabled\n- Minimum 12 characters where MFA not available\n- No maximum length\n- Common password blocking", "Ready"],
  ["A7 Access Control", "A7.12", "Support strong passwords", "1Password used for generating and storing unique passwords. Staff trained on three random words method. No regular password expiry. No complexity requirements.", "Ready"],
  ["A7 Access Control", "A7.13", "Compromised password process?", "Yes - report immediately, force reset, terminate sessions, re-verify MFA, review incident.", "Ready"],
  ["A7 Access Control", "A7.14", "All cloud services have MFA?", "Yes - all cloud services provide MFA:\n- Google Workspace ✓\n- Supabase ✓\n- Vercel ✓\n- GitHub ✓\n- 1Password ✓", "Ready"],
  ["A7 Access Control", "A7.15", "Services without MFA option", "N/A - all services have MFA", "N/A"],
  ["A7 Access Control", "A7.16", "MFA on all cloud admins?", "Yes - MFA mandatory for all admin accounts.", "Ready"],
  ["A7 Access Control", "A7.17", "MFA on all cloud users?", "Yes - MFA mandatory for all users.", "Ready"],
  ["A8 Malware", "A8.1", "Malware protection method (A/B/C)", "Both A and B:\nA - Anti-malware: Windows Defender, macOS XProtect\nB - Allow-listing: Gatekeeper (macOS), SmartScreen (Windows), Google Play Protect (Android)", "Ready"],
  ["A8 Malware", "A8.2", "Anti-malware updates + blocks?", "Yes - Windows Defender and XProtect auto-update and block/quarantine detected malware.", "Ready"],
  ["A8 Malware", "A8.3", "Warns on malicious sites?", "Yes:\n- Chrome: Safe Browsing enabled\n- Firefox: Phishing protection enabled\n- Edge: SmartScreen enabled\n- Safari: Fraudulent Website Warning enabled", "Ready"],
  ["A8 Malware", "A8.4", "Users restricted from unsigned apps?", "Yes - Gatekeeper (macOS) and SmartScreen (Windows) block unsigned/untrusted apps. Users cannot bypass without admin intervention.", "Ready"],
  ["A8 Malware", "A8.5", "Only approved apps + list maintained?", "Yes - staff instructed to only install approved business applications. Director approves new app requests. Mobile: only official app stores used.", "Ready"]
]

def widths : List Nat := [18, 8, 45, 70, 25]

def actions : List String := [
  "1. macOS Firewall is ENABLED (System Settings > Network > Firewall)",
  "2. Windows Defender Firewall is ENABLED (Settings > Privacy & security > Windows Security > Firewall)",
  "3. Confirm insurance email address is correct",
  "4. All devices have auto-updates enabled",
  "5. MFA is enforced on all cloud services"]

end MEMA

namespace V2

def summary_text : List String := [
  "Plannetic is a comprehensive, compliance-focused financial advisory platform",
  "designed specifically for UK-regulated Independent Financial Advisors (IFAs).",
  "",
  "Key Value Proposition:",
  "• Replaces 5-7 separate tools with one integrated platform",
  "• Saves IFAs £280+/month vs competitor tool stack (£530 → £250)",
  "• Saves 10-20 hours per client onboarding",
  "• Built-in FCA compliance and Consumer Duty workflows",
  "• AI-enhanced assessments and form auto-population"]

def pricing_headers : List String := [
  "Tier",
  "Monthly",
  "Commitment",
  "2-Year TCV",
  "3-Year TCV",
  "Best For"]

def pricing_data : List (List Value) := [
  [.str "Monthly", .int 350, .str "Month-to-month", .str "=B20*24", .str "=B20*36", .str "Trial/uncertain firms"],
  [.str "Standard", .int 250, .str "2-year", .str "=B21*24", .str "=B21*36", .str "Solo advisors, small firms"],
  [.str "Professional", .int 300, .str "2-year", .str "=B22*24", .str "=B22*36", .str "Growing firms, AI + support"],
  [.str "Enterprise", .str "Custom", .str "3-year", .str "Custom", .str "Custom", .str "5+ advisors, white-label"]
]

def savings_data : List (List Value) := [
  [.str "Metric", .str "Value", .str "Notes"],
  [.str "Competitor Stack Cost", .int 530, .str "Verified Dec 2025 pricing"],
  [.str "Plannetic Standard", .int 250, .str "Full platform access"],
  [.str "Monthly Savings", .str "=B28-B29", .str "Per month"],
  [.str "Annual Savings", .str "=B30*12", .str "Per year"],
  [.str "Savings %", .str "=B30/B28", .str "vs competitors"]
]

def comp_headers : List String := [
  "Software",
  "Monthly Price",
  "Price Type",
  "What They Offer",
  "Source"]

def competitors : List (List Value) := [
  [.str "Intelliflo Office", .int 132, .str "Per user", .str "Back office + cashflow", .str "TrustRadius"],
  [.str "Voyant AdviserGo", .int 175, .str "Flat fee", .str "Cash flow planning", .str "voyant.com"],
  [.str "Timeline", .int 162, .str "Flat (+VAT)", .str "Monte Carlo simulations", .str "timeline.co"],
  [.str "FE CashCalc", .int 90, .str "Per adviser (+VAT)", .str "Cash flow modelling", .str "advisoryai.com"],
  [.str "Dynamic Planner", .int 200, .str "Estimated", .str "Risk profiling + reports", .str "Contact required"],
  [.str "Plannetic Standard", .int 250, .str "Flat fee", .str "ALL-IN-ONE PLATFORM", .str "Your price"]
]

def stack_headers : List String := [
  "Tool Category",
  "Standalone Cost",
  "Plannetic",
  "Savings"]

def stack_data : List (List Value) := [
  [.str "CRM (generic)", .int 50, .str "Included", .str "=B35"],
  [.str "Risk Profiling", .int 50, .str "Included", .str "=B36"],
  [.str "Cash Flow (Voyant)", .int 175, .str "Included", .str "=B37"],
  [.str "Monte Carlo (Timeline)", .int 162, .str "Included", .str "=B38"],
  [.str "Document Generation", .int 50, .str "Included", .str "=B39"],
  [.str "E-Signatures", .int 23, .str "Included", .str "=B40"],
  [.str "Compliance Tracking", .int 50, .str "Included", .str "=B41"]
]

def calc_headers : List String := [
  "# Firms",
  "£250/mo (2yr)",
  "£300/mo (2yr)",
  "£250/mo (3yr)",
  "£300/mo (3yr)",
  "Difference",
  "Avg MRR"]

def firm_counts : List Nat := [1, 2, 3, 4, 5, 10, 15, 20, 25, 50, 75, 100, 150, 200, 250, 300]

def growth_headers : List String := [
  "Year",
  "New Firms",
  "Churn",
  "Total Firms",
  "MRR",
  "ARR"]

def conservative_new : List Nat := [10, 10, 15, 20, 25]

def moderate_new : List Nat := [25, 35, 45, 60, 75]

def aggressive_new : List Nat := [50, 70, 100, 130, 150]

def chart_headers : List String := [
  "Year",
  "Conservative",
  "Moderate",
  "Aggressive"]

def inputs : List (List Value) := [
  [.str "Tool", .str "Monthly Cost", .str "Notes"],
  [.str "CRM (generic)", .int 50, .str "Salesforce/HubSpot equivalent"],
  [.str "Risk Profiling Tool", .int 50, .str "Dynamic Planner element"],
  [.str "Cash Flow (Voyant)", .int 175, .str "Verified Dec 2025"],
  [.str "Monte Carlo (Timeline)", .int 162, .str "Verified Dec 2025 (£135+VAT)"],
  [.str "Document Generation", .int 50, .str "Word templates/Templafy"],
  [.str "E-Signatures", .int 23, .str "DocuSign/Adobe Sign"],
  [.str "Compliance Tracking", .int 50, .str "Manual/specialist tool"]
]

def time_inputs : List (List Value) := [
  [.str "Metric", .str "Value", .str "Notes"],
  [.str "Hours per client onboarding (current)", .int 15, .str "Manual process"],
  [.str "Time saved with Plannetic (%)", .dec 6 1, .str "60% automation"],
  [.str "Your hourly rate (£)", .int 100, .str "Advisor charge-out rate"],
  [.str "New clients per month", .int 4, .str "Average new clients"]
]

def results : List (List Value) := [
  [.str "Metric", .str "Monthly", .str "Annual", .str "Formula"],
  [.str "Software Savings", .str "=B14-B28", .str "=B33*12", .str "Current tools - Plannetic"],
  [.str "Hours Saved per Client", .str "=B20*B21", .str "=B34*12", .str "Hours × automation %"],
  [.str "Clients per Month", .str "=B23", .str "=B35*12", .str "From inputs"],
  [.str "Total Hours Saved", .str "=B34*B35", .str "=B36*12", .str "Hours × clients"],
  [.str "Value of Time Saved", .str "=B36*B22", .str "=B37*12", .str "Hours × rate"],
  [.str "", .str "", .str "", .str ""],
  [.str "TOTAL MONTHLY BENEFIT", .str "=B33+B37", .str "=B39*12", .str "Software + time savings"],
  [.str "Plannetic Cost", .str "=B28", .str "=B28*12", .str "Your subscription"],
  [.str "NET BENEFIT", .str "=B39-B40", .str "=B41*12", .str "Benefit - cost"],
  [.str "ROI %", .str "=B41/B40*100", .str "=C41/C40*100", .str "(Benefit-Cost)/Cost"]
]

def tier_headers : List String := [
  "Feature",
  "Standard £250/mo",
  "Professional £300/mo",
  "Enterprise (Custom)"]

def features : List (List Value) := [
  [.str "CORE FEATURES", .str "", .str "", .str ""],
  [.str "Client Management Hub", .str "✓", .str "✓", .str "✓"],
  [.str "All 6 Assessment Types", .str "✓", .str "✓", .str "✓"],
  [.str "Unlimited Clients", .str "✓", .str "✓", .str "✓"],
  [.str "Document Generation", .str "✓", .str "✓", .str "✓"],
  [.str "E-Signatures", .str "Fair Use", .str "Unlimited", .str "Unlimited"],
  [.str "FCA Compliance Registers", .str "✓", .str "✓", .str "✓"],
  [.str "Consumer Duty Workflows", .str "✓", .str "✓", .str "✓"],
  [.str "", .str "", .str "", .str ""],
  [.str "PREMIUM FEATURES", .str "", .str "", .str ""],
  [.str "AI Enhancement", .str "—", .str "✓", .str "✓"],
  [.str "Priority Support (4hr SLA)", .str "—", .str "✓", .str "✓"],
  [.str "Phone Support", .str "—", .str "✓", .str "✓"],
  [.str "White-label Client Portal", .str "—", .str "✓", .str "✓"],
  [.str "Advanced Analytics", .str "—", .str "✓", .str "✓"],
  [.str "API Access", .str "—", .str "—", .str "✓"],
  [.str "Custom Integrations", .str "—", .str "—", .str "✓"],
  [.str "Dedicated Account Manager", .str "—", .str "—", .str "✓"],
  [.str "", .str "", .str "", .str ""],
  [.str "ONBOARDING", .str "", .str "", .str ""],
  [.str "Data Migration", .str "Self-serve", .str "Assisted", .str "Full Service"],
  [.str "Training Sessions", .str "2 calls", .str "4 calls", .str "Unlimited"],
  [.str "", .str "", .str "", .str ""],
  [.str "CONTRACT", .str "", .str "", .str ""],
  [.str "Minimum Commitment", .str "2 years", .str "2 years", .str "3 years"],
  [.str "2-Year TCV", .str "=250*24", .str "=300*24", .str "Custom"],
  [.str "3-Year TCV", .str "=250*36", .str "=300*36", .str "Custom"]
]

def sources : List String := [
  "• Voyant: planwithvoyant.com/uk/pricing",
  "• Timeline: timeline.co (£135+VAT = £162)",
  "• CashCalc: advisoryai.com (£75+VAT = £90)",
  "• Intelliflo: trustradius.com (£130-135/user)"]

end V2
namespace CE

/-- The header-row fill of create-cyber-essentials-excel.py (line 27). -/
def header_fill : Fill := solidFill "4472C4"

/-- Status fill applied by the column-7 branch of the data write loop
(lines 166-174): exact string equality against the four status keys. -/
def statusFill (value : String) : Option Fill :=
  if value = "Ready" then some (solidFill "C6EFCE")
  else if value = "Pending" then some (solidFill "FFEB9C")
  else if value = "Confirm" then some (solidFill "BDD7EE")
  else if value = "Partial" then some (solidFill "FCE4D6")
  else none

/-- One data cell as written by the loop at lines 154-174: the wrap alignment,
border and column-1 section font are presentation details outside the model;
the status fill applies on column 7. -/
def dataCell (colNum : Nat) (value : String) : CellData :=
  { value := .str value, fill := if colNum = 7 then statusFill value else none }

/-- The "CE Question Set" sheet (lines 21-182): header row at row 1, data rows
from row 2, column widths, frozen top row. -/
def questionSheet : Sheet :=
  let s : Sheet := { name := "CE Question Set" }
  let s := (headers.enum).foldl
    (fun acc p => setCell acc 1 (p.1 + 1) { value := .str p.2, fill := some header_fill }) s
  let s := (data.enum).foldl
    (fun acc rp => (rp.2.enum).foldl
      (fun acc2 cp => setCell acc2 (rp.1 + 2) (cp.1 + 1) (dataCell (cp.1 + 1) cp.2)) acc) s
  { s with
    colWidths := (column_widths.enum).map (fun p => (p.1 + 1, p.2)),
    freezePanes := some "A2" }

/-- The "Summary" sheet (lines 185-227). -/
def summarySheet : Sheet :=
  let s : Sheet := { name := "Summary" }
  let s := setCell s 1 1 { value := .str "Cyber Essentials Certification - Status Summary" }
  let s := setCell s 3 1 { value := .str "Status Legend:" }
  let s := setCell s 4 1 { value := .str "Ready", fill := some (solidFill "C6EFCE") }
  let s := setCell s 4 2 { value := .str "Answer complete and verified" }
  let s := setCell s 5 1 { value := .str "Confirm", fill := some (solidFill "BDD7EE") }
  let s := setCell s 5 2 { value := .str "Needs your confirmation" }
  let s := setCell s 6 1 { value := .str "Pending", fill := some (solidFill "FFEB9C") }
  let s := setCell s 6 2 { value := .str "Requires your input (TBC)" }
  let s := setCell s 7 1 { value := .str "Partial", fill := some (solidFill "FCE4D6") }
  let s := setCell s 7 2 { value := .str "Partially complete, needs review" }
  let s := setCell s 9 1 { value := .str "Items Requiring Your Input:" }
  let s := (pending_items.enum).foldl
    (fun acc p => setCell acc (p.1 + 10) 1 { value := .str p.2 }) s
  { s with colWidths := [(1, 40), (2, 40)] }

/-- The workbook the script assembles before saving. The run takes no input:
all data is embedded literally, so the ambient environment is unread. -/
def build (_env : Env) : Workbook :=
  { sheets := [questionSheet, summarySheet] }

end CE

namespace MEMA

/-- The header-row fill of create-mema-cyber-essentials.py (line 25). -/
def header_fill : Fill := solidFill "2F5496"

/-- Fill for completed answers (line 33). -/
def ready_fill : Fill := solidFill "C6EFCE"

/-- Fill for answers still needing action (line 34). -/
def action_fill : Fill := solidFill "FFEB9C"

/-- Status fill applied by the column-5 branch of the data write loop
(lines 159-163): exact equality for "Ready", Python substring containment of
"ACTION" or "Confirm" for the action fill. -/
def statusFill (value : String) : Option Fill :=
  if value = "Ready" then some ready_fill
  else if pyContains value "ACTION" || pyContains value "Confirm" then some action_fill
  else none

/-- One data cell as written by the loop at lines 151-163 (alignment, border and
section font unmodelled); the status fill applies on column 5. -/
def dataCell (colNum : Nat) (value : String) : CellData :=
  { value := .str value, fill := if colNum = 5 then statusFill value else none }

/-- The "CE Answers" sheet (lines 19-170). -/
def answersSheet : Sheet :=
  let s : Sheet := { name := "CE Answers" }
  let s := (headers.enum).foldl
    (fun acc p => setCell acc 1 (p.1 + 1) { value := .str p.2, fill := some header_fill }) s
  let s := (data.enum).foldl
    (fun acc rp => (rp.2.enum).foldl
      (fun acc2 cp => setCell acc2 (rp.1 + 2) (cp.1 + 1) (dataCell (cp.1 + 1) cp.2)) acc) s
  { s with
    colWidths := (widths.enum).map (fun p => (p.1 + 1, p.2)),
    freezePanes := some "A2" }

/-- The "Actions Required" sheet (lines 173-198). -/
def actionsSheet : Sheet :=
  let s : Sheet := { name := "Actions Required" }
  let s := setCell s 1 1 { value := .str "MEMA Financial Services - Cyber Essentials Actions" }
  let s := setCell s 3 1 { value := .str "Before Submission - Verify:" }
  let s := (actions.enum).foldl
    (fun acc p => setCell acc (p.1 + 4) 1 { value := .str p.2 }) s
  let s := setCell s 10 1 { value := .str "Company Details Confirmed:" }
  let s := setCell s 11 1 { value := .str "MEMA Financial Services Ltd" }
  let s := setCell s 12 1 { value := .str "Company Number: 15382445" }
  let s := setCell s 13 1 { value := .str "34-35 Hatton Garden, London, EC1N 8DX" }
  let s := setCell s 14 1 { value := .str "IT Contact: Ade Omosanya, Director" }
  { s with colWidths := [(1, 80)] }

/-- The workbook the script assembles before saving; the run reads nothing from
its environment. -/
def build (_env : Env) : Workbook :=
  { sheets := [answersSheet, actionsSheet] }

end MEMA

namespace V2

/-- Fills of create-pricing-excel-v2.py, lines 29-34. -/
def header_fill : Fill := solidFill "1E40AF"

/-- Alternating-row body fill (line 30). -/
def alt_fill : Fill := solidFill "F3F4F6"

/-- Highlight fill (line 31). -/
def highlight_fill : Fill := solidFill "DCFCE7"

/-- Editable-input fill (line 32). -/
def input_fill : Fill := solidFill "FEF3C7"

/-- Warning fill (line 33; declared by the script but never applied). -/
def warning_fill : Fill := solidFill "FEE2E2"

/-- Blue accent fill (line 34). -/
def blue_fill : Fill := solidFill "DBEAFE"

/-- The pound number format the script uses throughout. -/
def poundFmt : String := "£#,##0"

/-- One pricing-table cell (lines 94-105): odd rows get the alternating fill;
column 2 integers and columns 4-5 formula strings get the pound format. -/
def pricingCell (rowIdx colIdx : Nat) (v : Value) : CellData :=
  { value := v,
    fill := if rowIdx % 2 = 1 then some alt_fill else none,
    numFmt :=
      if colIdx = 2 ∧ isIntVal v then some poundFmt
      else if (colIdx = 4 ∨ colIdx = 5) ∧ isFormulaStr v then some poundFmt
      else none }

/-- One savings-table cell (lines 120-135): row 28 is the header row; even rows
alternate; column 2 below the header is formatted, as a percentage on row 33. -/
def savingsCell (rowIdx colIdx : Nat) (v : Value) : CellData :=
  { value := v,
    fill := if rowIdx = 28 then some header_fill
            else if rowIdx % 2 = 0 then some alt_fill else none,
    numFmt := if colIdx = 2 ∧ rowIdx > 28 then
                (if rowIdx = 33 then some "0.0%" else some poundFmt)
              else none }

/-- The "Summary" sheet (lines 46-148). -/
def summarySheet : Sheet :=
  let s : Sheet := { name := "Summary" }
  let s := setCell s 1 1 { value := .str "PLANNETIC PRICING ANALYSIS" }
  let s := setCell s 2 1 { value := .str "Verified December 2025" }
  let s := setCell s 4 1 { value := .str "What is Plannetic?" }
  let s := (summary_text.enum).foldl
    (fun acc p => setCell acc (p.1 + 6) 1 { value := .str p.2 }) s
  let s := setCell s 17 1 { value := .str "Recommended Pricing Tiers" }
  let s := (pricing_headers.enum).foldl
    (fun acc p => setCell acc 19 (p.1 + 1) { value := .str p.2, fill := some header_fill }) s
  let s := (pricing_data.enum).foldl
    (fun acc rp => (rp.2.enum).foldl
      (fun acc2 cp =>
        setCell acc2 (rp.1 + 20) (cp.1 + 1) (pricingCell (rp.1 + 20) (cp.1 + 1) cp.2)) acc) s
  let s := setCell s 26 1 { value := .str "Monthly Savings Analysis" }
  let s := (savings_data.enum).foldl
    (fun acc rp => (rp.2.enum).foldl
      (fun acc2 cp =>
        setCell acc2 (rp.1 + 28) (cp.1 + 1) (savingsCell (rp.1 + 28) (cp.1 + 1) cp.2)) acc) s
  let s := setFill s 32 1 highlight_fill
  let s := setFill s 32 2 highlight_fill
  let s := setFill s 32 3 highlight_fill
  { s with colWidths := [(1, 25), (2, 15), (3, 22), (4, 15), (5, 15), (6, 28)] }

/-- One competitor-table cell (lines 184-195): column 2 pound-formatted, the
Plannetic row 12 highlighted, other even rows alternating. -/
def compCell (rowIdx colIdx : Nat) (v : Value) : CellData :=
  { value := v,
    numFmt := if colIdx = 2 then some poundFmt else none,
    fill := if rowIdx = 12 then some highlight_fill
            else if rowIdx % 2 = 0 then some alt_fill else none }

/-- The competitor bar chart (lines 198-217): data `Reference(min_col=2,
min_row=6, max_row=12)` with `max_col` defaulting to `min_col`, categories
`Reference(min_col=1, min_row=7, max_row=12)`. -/
def chart1 : ChartSpec :=
  { kind := "bar", title := "Monthly Software Costs Comparison",
    data := { minCol := 2, minRow := 6, maxCol := 2, maxRow := 12 },
    cats := { minCol := 1, minRow := 7, maxCol := 1, maxRow := 12 } }

/-- The tool-stack pie chart (lines 264-279). -/
def chart2 : ChartSpec :=
  { kind := "pie", title := "Tool Stack Cost Breakdown",
    data := { minCol := 2, minRow := 35, maxCol := 2, maxRow := 41 },
    cats := { minCol := 1, minRow := 35, maxCol := 1, maxRow := 41 } }

/-- One tool-stack cell (lines 241-247). -/
def stackCell (colIdx : Nat) (v : Value) : CellData :=
  { value := v, numFmt := if colIdx = 2 ∨ colIdx = 4 then some poundFmt else none }

/-- The "Competitor Pricing" sheet (lines 153-299). -/
def compSheet : Sheet :=
  let s : Sheet := { name := "Competitor Pricing" }
  let s := setCell s 1 1 { value := .str "COMPETITOR PRICING ANALYSIS" }
  let s := setCell s 2 1 { value := .str "Verified December 2025 - Sources linked below" }
  let s := setCell s 4 1 { value := .str "UK IFA Software Market - Verified Pricing" }
  let s := (comp_headers.enum).foldl
    (fun acc p => setCell acc 6 (p.1 + 1) { value := .str p.2, fill := some header_fill }) s
  let s := (competitors.enum).foldl
    (fun acc rp => (rp.2.enum).foldl
      (fun acc2 cp =>
        setCell acc2 (rp.1 + 7) (cp.1 + 1) (compCell (rp.1 + 7) (cp.1 + 1) cp.2)) acc) s
  let s := addChart s chart1 "A15"
  let s := setCell s 32 1 { value := .str "Typical IFA Tool Stack vs Plannetic" }
  let s := (stack_headers.enum).foldl
    (fun acc p => setCell acc 34 (p.1 + 1) { value := .str p.2, fill := some header_fill }) s
  let s := (stack_data.enum).foldl
    (fun acc rp => (rp.2.enum).foldl
      (fun acc2 cp => setCell acc2 (rp.1 + 35) (cp.1 + 1) (stackCell (cp.1 + 1) cp.2)) acc) s
  let s := setCell s 42 1 { value := .str "TOTAL" }
  let s := setCell s 42 2 { value := .str "=SUM(B35:B41)" }
  let s := setCell s 42 3 { value := .str "£250/mo" }
  let s := setCell s 42 4 { value := .str "=B42-250" }
  let s := (List.range 4).foldl (fun acc i =>
    let acc := setFill acc 42 (i + 1) highlight_fill
    if i + 1 = 2 ∨ i + 1 = 4 then setNumFmt acc 42 (i + 1) poundFmt else acc) s
  let s := addChart s chart2 "F32"
  let s := setCell s 45 1 { value := .str "Sources:" }
  let s := (sources.enum).foldl
    (fun acc p => setCell acc (p.1 + 46) 1 { value := .str p.2 }) s
  { s with colWidths := [(1, 22), (2, 15), (3, 18), (4, 12), (5, 18)] }

/-- One firm-count row of the Revenue Calculator (lines 344-383): the firm count
in column 1 and the six formula strings; column 6 highlighted; on even rows the
unfilled cells of columns 1-5 receive the alternating fill afterwards. -/
def calcRow (s : Sheet) (rowIdx : Nat) (firms : Nat) : Sheet :=
  let s := setCell s rowIdx 1 { value := .int (Int.ofNat firms) }
  let s := setCell s rowIdx 2
    { value := .str ("=A" ++ toString rowIdx ++ "*$B$5*24"), numFmt := some poundFmt }
  let s := setCell s rowIdx 3
    { value := .str ("=A" ++ toString rowIdx ++ "*$B$6*24"), numFmt := some poundFmt }
  let s := setCell s rowIdx 4
    { value := .str ("=A" ++ toString rowIdx ++ "*$B$5*36"), numFmt := some poundFmt }
  let s := setCell s rowIdx 5
    { value := .str ("=A" ++ toString rowIdx ++ "*$B$6*36"), numFmt := some poundFmt }
  let s := setCell s rowIdx 6
    { value := .str ("=E" ++ toString rowIdx ++ "-B" ++ toString rowIdx),
      numFmt := some poundFmt, fill := some highlight_fill }
  let s := setCell s rowIdx 7
    { value := .str ("=A" ++ toString rowIdx ++ "*($B$5+$B$6)/2"), numFmt := some poundFmt }
  if rowIdx % 2 = 0 then
    (List.range 5).foldl (fun acc j =>
      match getCell acc rowIdx (j + 1) with
      | some d => if d.fill = none then setFill acc rowIdx (j + 1) alt_fill else acc
      | none => acc) s
  else s

/-- The "Revenue Calculator" sheet (lines 304-387). -/
def calcSheet : Sheet :=
  let s : Sheet := { name := "Revenue Calculator" }
  let s := setCell s 1 1 { value := .str "REVENUE CALCULATOR" }
  let s := setCell s 3 1 { value := .str "INPUT PARAMETERS (Edit yellow cells)" }
  let s := setCell s 5 1 { value := .str "Standard Monthly Rate (£)" }
  let s := setCell s 5 2 { value := .int 250, numFmt := some poundFmt, fill := some input_fill }
  let s := setCell s 6 1 { value := .str "Professional Monthly Rate (£)" }
  let s := setCell s 6 2 { value := .int 300, numFmt := some poundFmt, fill := some input_fill }
  let s := setCell s 7 1 { value := .str "Monthly Rate (no commitment) (£)" }
  let s := setCell s 7 2 { value := .int 350, numFmt := some poundFmt, fill := some input_fill }
  let s := setCell s 10 1 { value := .str "REVENUE BY NUMBER OF FIRMS" }
  let s := (calc_headers.enum).foldl
    (fun acc p => setCell acc 12 (p.1 + 1) { value := .str p.2, fill := some header_fill }) s
  let s := (firm_counts.enum).foldl (fun acc p => calcRow acc (p.1 + 13) p.2) s
  { s with colWidths := (List.range 7).map (fun i => (i + 1, 16)) }

/-- One scenario data row, the shared body of the three growth loops
(lines 426-500): `row = base + i`; the first year holds literals in the churn
and total columns, later years formulas; MRR and ARR formulas in columns 5-6. -/
def growthRow (s : Sheet) (row i : Nat) (newFirms : Nat) : Sheet :=
  let s := setCell s row 1 { value := .int (Int.ofNat (i + 1)) }
  let s := setCell s row 2 { value := .int (Int.ofNat newFirms) }
  let s :=
    if i = 0 then
      let s := setCell s row 3 { value := .int 0 }
      setCell s row 4 { value := .str ("=B" ++ toString row) }
    else
      let s := setCell s row 3
        { value := .str ("=ROUND(D" ++ toString (row - 1) ++ "*$B$6,0)") }
      setCell s row 4
        { value := .str ("=D" ++ toString (row - 1) ++ "+B" ++ toString row
            ++ "-C" ++ toString row) }
  let s := setCell s row 5
    { value := .str ("=D" ++ toString row ++ "*$B$5"), numFmt := some poundFmt }
  setCell s row 6
    { value := .str ("=E" ++ toString row ++ "*12"), numFmt := some poundFmt }

/-- One whole scenario table body starting at `base`. -/
def scenarioRows (s : Sheet) (base : Nat) (newPerYear : List Nat) : Sheet :=
  (newPerYear.enum).foldl (fun acc p => growthRow acc (base + p.1) p.1 p.2) s

/-- The chart-helper block (lines 513-521): for each `i < 5`, the year in column
8 and the three hardcoded ARR cross-references in columns 9-11. -/
def chartHelper (s : Sheet) : Sheet :=
  (List.range 5).foldl (fun acc i =>
    let row := 5 + i
    let acc := setCell acc row 8 { value := .int (Int.ofNat (i + 1)) }
    let acc := setCell acc row 9
      { value := .str ("=F" ++ toString (11 + i)), numFmt := some poundFmt }
    let acc := setCell acc row 10
      { value := .str ("=F" ++ toString (20 + i)), numFmt := some poundFmt }
    setCell acc row 11
      { value := .str ("=F" ++ toString (29 + i)), numFmt := some poundFmt }) s

/-- The ARR line chart (lines 524-538). -/
def chart3 : ChartSpec :=
  { kind := "line", title := "ARR Growth Projections",
    data := { minCol := 9, minRow := 4, maxCol := 11, maxRow := 9 },
    cats := { minCol := 8, minRow := 5, maxCol := 8, maxRow := 9 } }

/-- The "Growth Projections" sheet (lines 392-542). -/
def growthSheet : Sheet :=
  let s : Sheet := { name := "Growth Projections" }
  let s := setCell s 1 1 { value := .str "GROWTH PROJECTIONS" }
  let s := setCell s 3 1 { value := .str "SCENARIO INPUTS (Edit yellow cells)" }
  let s := setCell s 5 1 { value := .str "Monthly Rate (£)" }
  let s := setCell s 5 2 { value := .int 250, numFmt := some poundFmt, fill := some input_fill }
  let s := setCell s 6 1 { value := .str "Annual Churn Rate (%)" }
  let s := setCell s 6 2 { value := .dec 5 2, numFmt := some "0%", fill := some input_fill }
  let s := setCell s 9 1 { value := .str "CONSERVATIVE (10 new firms/year)" }
  let s := (growth_headers.enum).foldl
    (fun acc p => setCell acc 10 (p.1 + 1) { value := .str p.2, fill := some header_fill }) s
  let s := scenarioRows s 11 conservative_new
  let s := setCell s 18 1 { value := .str "MODERATE (25 new firms/year)" }
  let s := (growth_headers.enum).foldl
    (fun acc p => setCell acc 19 (p.1 + 1) { value := .str p.2, fill := some header_fill }) s
  let s := scenarioRows s 20 moderate_new
  let s := setCell s 27 1 { value := .str "AGGRESSIVE (50 new firms/year)" }
  let s := (growth_headers.enum).foldl
    (fun acc p => setCell acc 28 (p.1 + 1) { value := .str p.2, fill := some header_fill }) s
  let s := scenarioRows s 29 aggressive_new
  let s := setCell s 3 8 { value := .str "ARR Comparison (for chart)" }
  let s := (chart_headers.enum).foldl
    (fun acc p => setCell acc 4 (p.1 + 8) { value := .str p.2, fill := some header_fill }) s
  let s := chartHelper s
  let s := addChart s chart3 "H12"
  { s with colWidths := (List.range 11).map (fun i => (i + 1, 14)) }

/-- One ROI current-tool input cell (lines 571-582). -/
def roiInputCell (rowIdx colIdx : Nat) (v : Value) : CellData :=
  if rowIdx = 6 then { value := v, fill := some header_fill }
  else
    { value := v,
      fill := if colIdx = 2 then some input_fill else none,
      numFmt := if colIdx = 2 then some poundFmt else none }

/-- One time-savings input cell (lines 607-621). -/
def timeCell (rowIdx colIdx : Nat) (v : Value) : CellData :=
  if rowIdx = 19 then { value := v, fill := some header_fill }
  else
    { value := v,
      fill := if colIdx = 2 then some input_fill else none,
      numFmt := if colIdx = 2 then
                  (if rowIdx = 21 then some "0%"
                   else if rowIdx = 22 then some poundFmt else none)
                else none }

/-- One ROI-analysis cell (lines 652-672). The source's percentage format and
highlight for row 44 are embedded as written, although the table's last row is
43, so the row-44 branches never fire. -/
def roiResultCell (rowIdx colIdx : Nat) (v : Value) : CellData :=
  let base : CellData :=
    if rowIdx = 33 then { value := v, fill := some header_fill }
    else
      { value := v,
        numFmt :=
          if (colIdx = 2 ∨ colIdx = 3) ∧ pyTruthy v then
            (if rowIdx = 44 then some "0.0\"%\""
             else if rowIdx = 35 ∨ rowIdx = 36 ∨ rowIdx = 37 then some "0.0"
             else some poundFmt)
          else none }
  if rowIdx = 39 ∨ rowIdx = 41 ∨ rowIdx = 43 ∨ rowIdx = 44 then
    { base with fill := some highlight_fill }
  else base

/-- The ROI savings bar chart (lines 675-698). -/
def chart4 : ChartSpec :=
  { kind := "bar", title := "Monthly Savings Breakdown",
    data := { minCol := 7, minRow := 33, maxCol := 7, maxRow := 35 },
    cats := { minCol := 6, minRow := 34, maxCol := 6, maxRow := 35 } }

/-- The "ROI Calculator" sheet (lines 547-704). -/
def roiSheet : Sheet :=
  let s : Sheet := { name := "ROI Calculator" }
  let s := setCell s 1 1 { value := .str "CLIENT ROI CALCULATOR" }
  let s := setCell s 2 1 { value := .str "Calculate the ROI for your prospective clients" }
  let s := setCell s 4 1 { value := .str "CURRENT TOOL COSTS (Edit yellow cells)" }
  let s := (inputs.enum).foldl
    (fun acc rp => (rp.2.enum).foldl
      (fun acc2 cp =>
        setCell acc2 (rp.1 + 6) (cp.1 + 1) (roiInputCell (rp.1 + 6) (cp.1 + 1) cp.2)) acc) s
  let s := setCell s 14 1 { value := .str "TOTAL CURRENT MONTHLY COST", fill := some blue_fill }
  let s := setCell s 14 2
    { value := .str "=SUM(B7:B13)", numFmt := some poundFmt, fill := some blue_fill }
  let s := setCell s 17 1 { value := .str "TIME SAVINGS (Edit yellow cells)" }
  let s := (time_inputs.enum).foldl
    (fun acc rp => (rp.2.enum).foldl
      (fun acc2 cp =>
        setCell acc2 (rp.1 + 19) (cp.1 + 1) (timeCell (rp.1 + 19) (cp.1 + 1) cp.2)) acc) s
  let s := setCell s 26 1 { value := .str "PLANNETIC COST" }
  let s := setCell s 28 1 { value := .str "Plannetic Monthly Cost" }
  let s := setCell s 28 2 { value := .int 250, numFmt := some poundFmt, fill := some input_fill }
  let s := setCell s 31 1 { value := .str "ROI ANALYSIS" }
  let s := (results.enum).foldl
    (fun acc rp => (rp.2.enum).foldl
      (fun acc2 cp =>
        setCell acc2 (rp.1 + 33) (cp.1 + 1) (roiResultCell (rp.1 + 33) (cp.1 + 1) cp.2)) acc) s
  let s := setCell s 33 6 { value := .str "Category" }
  let s := setCell s 33 7 { value := .str "Value" }
  let s := setCell s 34 6 { value := .str "Software Savings" }
  let s := setCell s 34 7 { value := .str "=B33", numFmt := some poundFmt }
  let s := setCell s 35 6 { value := .str "Time Value Saved" }
  let s := setCell s 35 7 { value := .str "=B37", numFmt := some poundFmt }
  let s := addChart s chart4 "E17"
  { s with colWidths := [(1, 32), (2, 15), (3, 15), (4, 25)] }

/-- One tier-comparison cell (lines 753-772): the four section-header labels get
the blue fill, and the TCV rows 29-30 are pound-formatted in columns 2-3. -/
def tierCell (rowIdx colIdx : Nat) (v : Value) : CellData :=
  { value := v,
    fill := if v = .str "CORE FEATURES" ∨ v = .str "PREMIUM FEATURES"
               ∨ v = .str "ONBOARDING" ∨ v = .str "CONTRACT"
            then some blue_fill else none,
    numFmt := if (rowIdx = 29 ∨ rowIdx = 30) ∧ (colIdx = 2 ∨ colIdx = 3)
              then some poundFmt else none }

/-- The "Tier Comparison" sheet (lines 709-778). -/
def tiersSheet : Sheet :=
  let s : Sheet := { name := "Tier Comparison" }
  let s := setCell s 1 1 { value := .str "PLANNETIC PRICING TIERS" }
  let s := (tier_headers.enum).foldl
    (fun acc p => setCell acc 3 (p.1 + 1) { value := .str p.2, fill := some header_fill }) s
  let s := (features.enum).foldl
    (fun acc rp => (rp.2.enum).foldl
      (fun acc2 cp =>
        setCell acc2 (rp.1 + 4) (cp.1 + 1) (tierCell (rp.1 + 4) (cp.1 + 1) cp.2)) acc) s
  { s with colWidths := [(1, 28), (2, 20), (3, 20), (4, 20)] }

/-- The six-sheet workbook create-pricing-excel-v2.py assembles before saving;
the run reads nothing from its environment. -/
def build (_env : Env) : Workbook :=
  { sheets := [summarySheet, compSheet, calcSheet, growthSheet, roiSheet, tiersSheet] }

end V2

/-- The exact-equality conditional-fill mapping of the cyber-essentials status
column, read off lines 166-174. -/
def ceStatusMap : List (String × Fill) :=
  [("Ready", solidFill "C6EFCE"), ("Pending", solidFill "FFEB9C"),
   ("Confirm", solidFill "BDD7EE"), ("Partial", solidFill "FCE4D6")]

/-- Example headers from the spec's concrete scenario (§8). -/
def tierHeadersEx : List Value := [.str "Tier", .str "Monthly"]

/-- Example well-shaped rows from the spec's concrete scenario (§8). -/
def tierRowsEx : List (List Value) :=
  [[.str "Standard", .int 250], [.str "Professional", .int 300]]

/-- Example rows whose second row is one cell short. -/
def badRowsEx : List (List Value) :=
  [[.str "Standard", .int 250], [.str "Professional"]]

/-- The rows at which the three Growth Projections scenario loops write their
ARR formulas into column 6 (`row = base + i` for bases 11, 20, 29 and `i < 5`). -/
def arrDataRows : List Nat := [11, 12, 13, 14, 15, 20, 21, 22, 23, 24, 29, 30, 31, 32, 33]
/-! ## Generic lemmas about cell writes -/

theorem getCell_setCell_self (s : Sheet) (r c : Nat) (d : CellData) :
    getCell (setCell s r c d) r c = some d := by
  simp [getCell, setCell, lookupCell]

theorem getCell_setCell_ne (s : Sheet) (r c : Nat) (d : CellData) (r2 c2 : Nat)
    (h : (r2, c2) ≠ (r, c)) :
    getCell (setCell s r c d) r2 c2 = getCell s r2 c2 := by
  have h2 : ((r, c) : Nat × Nat) ≠ (r2, c2) := fun he => h he.symm
  simp [getCell, setCell, lookupCell, h2]

theorem writeRow_get_out (s : Sheet) (r c : Nat) (vs : List Value) (r2 c2 : Nat)
    (h : r2 ≠ r ∨ c2 < c ∨ c + vs.length ≤ c2) :
    getCell (writeRow s r c vs) r2 c2 = getCell s r2 c2 := by
  induction vs generalizing s c with
  | nil => rfl
  | cons v t ih =>
    have hne : ((r2, c2) : Nat × Nat) ≠ (r, c) := by
      intro he
      injection he with h1 h2
      rcases h with h | h | h
      · exact h h1
      · omega
      · simp only [List.length_cons] at h; omega
    have htail : r2 ≠ r ∨ c2 < c + 1 ∨ (c + 1) + t.length ≤ c2 := by
      rcases h with h | h | h
      · exact Or.inl h
      · exact Or.inr (Or.inl (by omega))
      · refine Or.inr (Or.inr ?_)
        simp only [List.length_cons] at h; omega
    rw [writeRow, ih _ _ htail, getCell_setCell_ne _ _ _ _ _ _ hne]

theorem writeRow_get_in (s : Sheet) (r c : Nat) (vs : List Value) (j : Nat)
    (hj : j < vs.length) :
    getCell (writeRow s r c vs) r (c + j) = some { value := vs[j] } := by
  induction vs generalizing s c j with
  | nil => simp at hj
  | cons v t ih =>
    cases j with
    | zero =>
      rw [writeRow, writeRow_get_out _ _ _ _ _ _ (Or.inr (Or.inl (by omega)))]
      simpa using getCell_setCell_self s r c { value := v }
    | succ j2 =>
      have hj2 : j2 < t.length := by simp only [List.length_cons] at hj; omega
      have hrec := ih (setCell s r c { value := v }) (c + 1) j2 hj2
      rw [writeRow]
      have heq : c + (j2 + 1) = (c + 1) + j2 := by omega
      rw [heq, hrec]
      simp

theorem writeRows_get_above (s : Sheet) (r c : Nat) (rows : List (List Value)) (r2 c2 : Nat)
    (h : r2 < r) :
    getCell (writeRows s r c rows) r2 c2 = getCell s r2 c2 := by
  induction rows generalizing s r with
  | nil => rfl
  | cons row rest ih =>
    rw [writeRows, ih _ (r + 1) (by omega),
      writeRow_get_out _ _ _ _ _ _ (Or.inl (by omega))]

theorem writeRows_get_row (s : Sheet) (r c : Nat) (rows : List (List Value)) (i j : Nat)
    (hi : i < rows.length) (hj : j < (rows[i]).length) :
    getCell (writeRows s r c rows) (r + i) (c + j) = some { value := (rows[i])[j] } := by
  induction rows generalizing s r i with
  | nil => simp at hi
  | cons row rest ih =>
    cases i with
    | zero =>
      rw [writeRows, writeRows_get_above _ _ _ _ _ _ (by omega)]
      have hj0 : j < row.length := by simpa using hj
      simpa using writeRow_get_in s r c row j hj0
    | succ i2 =>
      have hi2 : i2 < rest.length := by simp only [List.length_cons] at hi; omega
      have hj2 : j < (rest[i2]).length := by simpa using hj
      have hrec := ih (writeRow s r c row) (r + 1) i2 hi2 hj2
      rw [writeRows]
      have heq : r + (i2 + 1) = (r + 1) + i2 := by omega
      rw [heq, hrec]
      simp

theorem rowPopulated_of_lookup (cells : List ((Nat × Nat) × CellData)) (r c : Nat)
    (d : CellData) (h : lookupCell cells r c = some d) :
    cells.any (fun e => e.1.1 == r) = true := by
  induction cells with
  | nil => simp [lookupCell] at h
  | cons e t ih =>
    obtain ⟨k, dd⟩ := e
    rw [lookupCell] at h
    by_cases hk : k = (r, c)
    · subst hk; simp
    · rw [if_neg hk] at h
      simp [ih h]

theorem rowPopulated_of_getCell (s : Sheet) (r c : Nat) (d : CellData)
    (h : getCell s r c = some d) : rowPopulated s r = true :=
  rowPopulated_of_lookup s.cells r c d h

/-! ## Claim theorems -/

/-- C1: for every headers list and rows list in which each row has exactly
`headers.length` entries, `writeTable` succeeds (no error), the header row lands
at the anchor with each header at its matching column, data row `i` (0-based)
lands at anchor row + 1 + i with each cell at its matching column, and all
`rows.length + 1` table rows from the anchor down are populated (the populated
count presumes at least one header column, since a width-zero table writes no
cell at all). -/
theorem c1_write_table_success (s : Sheet) (anchor : Nat × Nat) (headers : List Value)
    (rows : List (List Value)) (hshape : ∀ row ∈ rows, row.length = headers.length) :
    (writeTable s anchor headers rows).2 = none ∧
    (∀ j, (hj : j < headers.length) →
      getCell (writeTable s anchor headers rows).1 anchor.1 (anchor.2 + j)
        = some { value := headers[j] }) ∧
    (∀ i j, (hi : i < rows.length) → (hj : j < (rows[i]).length) →
      getCell (writeTable s anchor headers rows).1 (anchor.1 + 1 + i) (anchor.2 + j)
        = some { value := (rows[i])[j] }) ∧
    (0 < headers.length →
      populatedInRange (writeTable s anchor headers rows).1 anchor.1 (rows.length + 1)
        = rows.length + 1) := by
  obtain ⟨ar, ac⟩ := anchor
  have hall : rows.all (fun row => row.length == headers.length) = true := by
    rw [List.all_eq_true]
    intro row hrow
    exact beq_iff_eq.mpr (hshape row hrow)
  have hwt : writeTable s (ar, ac) headers rows
      = (writeRows (writeRow s ar ac headers) (ar + 1) ac rows, none) := by
    simp [writeTable, hall]
  refine ⟨?_, ?_, ?_, ?_⟩
  · rw [hwt]
  · intro j hj
    rw [hwt]
    simp only
    rw [writeRows_get_above _ _ _ _ _ _ (by omega)]
    exact writeRow_get_in s ar ac headers j hj
  · intro i j hi hj
    rw [hwt]
    simp only
    have := writeRows_get_row (writeRow s ar ac headers) (ar + 1) ac rows i j hi hj
    have heq : ar + 1 + i = (ar + 1) + i := rfl
    rw [heq, this]
  · intro hpos
    rw [hwt]
    simp only [populatedInRange]
    have hlen : (List.range (rows.length + 1)).length = rows.length + 1 :=
      List.length_range _
    refine Eq.trans (List.countP_eq_length.mpr ?_) hlen
    intro i hmem
    rw [List.mem_range] at hmem
    cases i with
    | zero =>
      have h0 : getCell (writeRows (writeRow s ar ac headers) (ar + 1) ac rows) ar (ac + 0)
          = some { value := headers[0] } := by
        rw [writeRows_get_above _ _ _ _ _ _ (by omega)]
        exact writeRow_get_in s ar ac headers 0 hpos
      simpa using rowPopulated_of_getCell _ _ _ _ h0
    | succ i2 =>
      have hi2 : i2 < rows.length := by omega
      have hlen2 : 0 < (rows[i2]).length := by
        rw [hshape _ (List.getElem_mem hi2)]
        exact hpos
      have hcell := writeRows_get_row (writeRow s ar ac headers) (ar + 1) ac rows i2 0 hi2 hlen2
      have heq : (ar + 1) + i2 = ar + (i2 + 1) := by omega
      rw [heq] at hcell
      exact rowPopulated_of_getCell _ _ _ _ hcell

/-- Witness for C1: the spec §8 scenario - headers Tier/Monthly with two
two-entry rows written at anchor (1, 1) succeeds, places every cell, and
populates three rows. -/
theorem c1_write_table_success_witness :
    (∀ row ∈ tierRowsEx, row.length = tierHeadersEx.length) ∧
    ((writeTable { name := "Pricing" } (1, 1) tierHeadersEx tierRowsEx).2 = none ∧
      (∀ j, (hj : j < tierHeadersEx.length) →
        getCell (writeTable { name := "Pricing" } (1, 1) tierHeadersEx tierRowsEx).1 1 (1 + j)
          = some { value := tierHeadersEx[j] }) ∧
      (∀ i j, (hi : i < tierRowsEx.length) → (hj : j < (tierRowsEx[i]).length) →
        getCell (writeTable { name := "Pricing" } (1, 1) tierHeadersEx tierRowsEx).1
            (1 + 1 + i) (1 + j)
          = some { value := (tierRowsEx[i])[j] }) ∧
      (0 < tierHeadersEx.length →
        populatedInRange (writeTable { name := "Pricing" } (1, 1) tierHeadersEx tierRowsEx).1 1
            (tierRowsEx.length + 1)
          = tierRowsEx.length + 1)) :=
  have h : ∀ row ∈ tierRowsEx, row.length = tierHeadersEx.length := by decide
  ⟨h, c1_write_table_success { name := "Pricing" } (1, 1) tierHeadersEx tierRowsEx h⟩

/-- C2: if some row's length differs from the header count, `writeTable` fails
with `RowShapeError` and the sheet is returned with its cells exactly as they
were (all-or-nothing: no partial row is written). -/
theorem c2_write_table_row_shape (s : Sheet) (anchor : Nat × Nat) (headers : List Value)
    (rows : List (List Value)) (hbad : ∃ row ∈ rows, row.length ≠ headers.length) :
    (writeTable s anchor headers rows).2 = some BuilderError.RowShapeError ∧
    (writeTable s anchor headers rows).1 = s ∧
    (writeTable s anchor headers rows).1.cells = s.cells := by
  obtain ⟨row, hrow, hne⟩ := hbad
  have hall : rows.all (fun row => row.length == headers.length) = false := by
    rw [List.all_eq_false]
    exact ⟨row, hrow, by simpa using hne⟩
  have hwt : writeTable s anchor headers rows = (s, some .RowShapeError) := by
    simp [writeTable, hall]
  rw [hwt]
  exact ⟨rfl, rfl, rfl⟩

/-- Witness for C2: against the Tier/Monthly headers, a rows list whose second
row has only one entry is rejected with `RowShapeError` and the sheet (here a
fresh "Pricing" sheet) keeps its cells untouched. -/
theorem c2_write_table_row_shape_witness :
    (∃ row ∈ badRowsEx, row.length ≠ tierHeadersEx.length) ∧
    ((writeTable { name := "Pricing" } (1, 1) tierHeadersEx badRowsEx).2
        = some BuilderError.RowShapeError ∧
      (writeTable { name := "Pricing" } (1, 1) tierHeadersEx badRowsEx).1
        = { name := "Pricing" } ∧
      (writeTable { name := "Pricing" } (1, 1) tierHeadersEx badRowsEx).1.cells
        = Sheet.cells { name := "Pricing" }) :=
  have h : ∃ row ∈ badRowsEx, row.length ≠ tierHeadersEx.length := by decide
  ⟨h, c2_write_table_row_shape { name := "Pricing" } (1, 1) tierHeadersEx badRowsEx h⟩

theorem pyContains_ready_false :
    (pyContains "Ready" "ACTION" || pyContains "Ready" "Confirm") = false := by decide

/-- C4: starting from an empty workbook, `addSheet name` succeeds and the sheet
count becomes 1; a second `addSheet` with the same name fails with
`DuplicateNameError` and leaves the workbook - in particular its sheet count -
unchanged. -/
theorem c4_add_sheet_duplicate (name : String) :
    (addSheet { sheets := [] } name).2 = none ∧
    (addSheet { sheets := [] } name).1.sheets.length = 1 ∧
    (addSheet (addSheet { sheets := [] } name).1 name).2
      = some BuilderError.DuplicateNameError ∧
    (addSheet (addSheet { sheets := [] } name).1 name).1
      = (addSheet { sheets := [] } name).1 ∧
    (addSheet (addSheet { sheets := [] } name).1 name).1.sheets.length = 1 := by
  simp [addSheet]

/-- C5: attaching the competitor bar chart (data = rows 6-12 of column 2,
categories = rows 7-12 of column 1) to any sheet - whatever values its cells
hold - appends exactly that chart spec and changes no cell, nor the name,
widths or freeze state; the script's own Competitor Pricing sheet carries this
chart at anchor "A15". -/
theorem c5_attach_chart (s : Sheet) :
    (addChart s V2.chart1 "A15").cells = s.cells ∧
    (∀ r c, getCell (addChart s V2.chart1 "A15") r c = getCell s r c) ∧
    (addChart s V2.chart1 "A15").name = s.name ∧
    (addChart s V2.chart1 "A15").colWidths = s.colWidths ∧
    (addChart s V2.chart1 "A15").freezePanes = s.freezePanes ∧
    (addChart s V2.chart1 "A15").charts = s.charts ++ [(V2.chart1, "A15")] ∧
    V2.chart1.data = { minCol := 2, minRow := 6, maxCol := 2, maxRow := 12 } ∧
    V2.chart1.cats = { minCol := 1, minRow := 7, maxCol := 1, maxRow := 12 } ∧
    (V2.chart1, "A15") ∈ V2.compSheet.charts := by
  refine ⟨rfl, fun r c => rfl, rfl, rfl, rfl, rfl, rfl, rfl, ?_⟩
  decide

/-- C8: in the MEMA script a status cell gets the green ready fill iff its value
is exactly "Ready", and the yellow action fill iff its value contains "ACTION"
or "Confirm" as a substring; any other value (e.g. "N/A") gets no fill. In
particular the non-key values "Confirm email" (row A3.3, sheet row 27) and
"ACTION: Verify both firewalls are ON" (row A4.1.1, sheet row 29) do receive
the action fill in the generated sheet. -/
theorem c8_mema_status_fill :
    (∀ v : String, MEMA.statusFill v = some MEMA.ready_fill ↔ v = "Ready") ∧
    (∀ v : String, MEMA.statusFill v = some MEMA.action_fill ↔
      (pyContains v "ACTION" || pyContains v "Confirm") = true) ∧
    MEMA.statusFill "Confirm email" = some MEMA.action_fill ∧
    MEMA.statusFill "ACTION: Verify both firewalls are ON" = some MEMA.action_fill ∧
    MEMA.statusFill "N/A" = none ∧
    getCell MEMA.answersSheet 27 5
      = some { value := .str "Confirm email", fill := some MEMA.action_fill } ∧
    getCell MEMA.answersSheet 29 5
      = some { value := .str "ACTION: Verify both firewalls are ON",
               fill := some MEMA.action_fill } := by
  refine ⟨?_, ?_, by decide, by decide, by decide, by decide, by decide⟩
  · intro v
    unfold MEMA.statusFill
    split_ifs with h1 h2
    · simp [h1]
    · simp only [h1, iff_false]
      intro he
      have : MEMA.action_fill = MEMA.ready_fill := by injection he
      exact absurd this (by decide)
    · simp [h1]
  · intro v
    unfold MEMA.statusFill
    split_ifs with h1 h2
    · subst h1
      simp only [pyContains_ready_false]
      constructor
      · intro he
        have : MEMA.ready_fill = MEMA.action_fill := by injection he
        exact absurd this (by decide)
      · intro he
        exact absurd he (by decide)
    · simp [h2]
    · simp [h2]

/-- C3 counterexample: the claim's iff fails on the MEMA script - the status
cell of data row A3.3 (sheet row 27) holds "Confirm email", which equals none
of the conditional-fill keys appearing in the scripts (Ready, Pending, Confirm,
Partial; exact-equality lookup on that mapping yields no fill), yet the cell
receives the yellow action fill instead of keeping the default (no) fill. -/
theorem c3_counterexample :
    getCell MEMA.answersSheet 27 5
      = some { value := .str "Confirm email", fill := some MEMA.action_fill } ∧
    MEMA.statusFill "Confirm email" = some MEMA.action_fill ∧
    condFillLookup ceStatusMap "Confirm email" = none ∧
    "Confirm email" ≠ "Ready" ∧ "Confirm email" ≠ "Pending" ∧
    "Confirm email" ≠ "Confirm" ∧ "Confirm email" ≠ "Partial" := by
  refine ⟨by decide, by decide, by decide, by decide, by decide, by decide, by decide⟩

/-- C3 (amended): a written cell receives a mapped fill iff its value equals a
key of the mapping in the cyber-essentials script, whose status fill coincides
with exact-equality lookup in its four-key mapping (so "Other" keeps the
default, i.e. no, fill); the MEMA script keeps exact equality only for the
green "Ready" fill, while its yellow action fill is applied iff the value
contains "ACTION" or "Confirm" as a substring, and values matching neither
rule keep the default (no) fill. -/
theorem c3_conditional_fill_amended :
    (∀ v : String, CE.statusFill v = condFillLookup ceStatusMap v) ∧
    CE.statusFill "Other" = none ∧
    (∀ v : String, MEMA.statusFill v = some MEMA.ready_fill ↔ v = "Ready") ∧
    (∀ v : String, MEMA.statusFill v = some MEMA.action_fill ↔
      (pyContains v "ACTION" || pyContains v "Confirm") = true) ∧
    (∀ v : String, v ≠ "Ready" →
      (pyContains v "ACTION" || pyContains v "Confirm") = false →
      MEMA.statusFill v = none) := by
  refine ⟨?_, by decide, ?_, ?_, ?_⟩
  · intro v
    by_cases h1 : v = "Ready"
    · subst h1; decide
    · by_cases h2 : v = "Pending"
      · subst h2; decide
      · by_cases h3 : v = "Confirm"
        · subst h3; decide
        · by_cases h4 : v = "Partial"
          · subst h4; decide
          · have e1 : ("Ready" == v) = false := beq_eq_false_iff_ne.mpr (Ne.symm h1)
            have e2 : ("Pending" == v) = false := beq_eq_false_iff_ne.mpr (Ne.symm h2)
            have e3 : ("Confirm" == v) = false := beq_eq_false_iff_ne.mpr (Ne.symm h3)
            have e4 : ("Partial" == v) = false := beq_eq_false_iff_ne.mpr (Ne.symm h4)
            simp [CE.statusFill, condFillLookup, ceStatusMap, List.find?,
              h1, h2, h3, h4, e1, e2, e3, e4]
  · intro v
    unfold MEMA.statusFill
    split_ifs with h1 h2
    · simp [h1]
    · simp only [h1, iff_false]
      intro he
      have : MEMA.action_fill = MEMA.ready_fill := by injection he
      exact absurd this (by decide)
    · simp [h1]
  · intro v
    unfold MEMA.statusFill
    split_ifs with h1 h2
    · subst h1
      simp only [pyContains_ready_false]
      constructor
      · intro he
        have : MEMA.ready_fill = MEMA.action_fill := by injection he
        exact absurd this (by decide)
      · intro he
        exact absurd he (by decide)
    · simp [h2]
    · simp [h2]
  · intro v h1 h2
    unfold MEMA.statusFill
    rw [if_neg h1, if_neg (by simp [h2])]

/-- C6: every literal table of the generated workbooks satisfies the Table
invariant - each data row has exactly as many entries as its header row: 7 in
the cyber-essentials sheet, 5 in the MEMA sheet, and likewise for every
header/rows table of the v2 pricing workbook. -/
theorem c6_table_invariant :
    CE.headers.length = 7 ∧ (∀ row ∈ CE.data, row.length = CE.headers.length) ∧
    MEMA.headers.length = 5 ∧ (∀ row ∈ MEMA.data, row.length = MEMA.headers.length) ∧
    (∀ row ∈ V2.pricing_data, row.length = V2.pricing_headers.length) ∧
    (∀ row ∈ V2.competitors, row.length = V2.comp_headers.length) ∧
    (∀ row ∈ V2.stack_data, row.length = V2.stack_headers.length) ∧
    (∀ row ∈ V2.features, row.length = V2.tier_headers.length) := by
  decide

/-- C7: workbook generation is deterministic - the builders take no input
beyond the embedded literal data and read nothing from the ambient environment
(no CLI arguments, environment variables or clock), so any two runs construct
identical workbooks: the same sheets in the same order with the same cell
values, formulas, number formats and fills. -/
theorem c7_deterministic (e1 e2 : Env) :
    CE.build e1 = CE.build e2 ∧ MEMA.build e1 = MEMA.build e2 ∧
    V2.build e1 = V2.build e2 :=
  ⟨rfl, rfl, rfl⟩

/-- C9: in the Revenue Calculator sheet, each of the 16 firm counts is written
in column 1 of row `r = 13 + i`, and columns 2-7 of that row hold exactly the
formula strings "=A r *$B$5*24", "=A r *$B$6*24", "=A r *$B$5*36",
"=A r *$B$6*36", "=E r -B r" and "=A r *($B$5+$B$6)/2" - referencing only cells
of the same row r and the fixed inputs $B$5/$B$6. -/
theorem c9_revenue_calculator_formulas :
    ∀ i : Fin 16,
      ((getCell V2.calcSheet (13 + i.val) 1).map CellData.value)
          = some (.int (Int.ofNat (V2.firm_counts.getD i.val 0))) ∧
      ((getCell V2.calcSheet (13 + i.val) 2).map CellData.value)
          = some (.str ("=A" ++ toString (13 + i.val) ++ "*$B$5*24")) ∧
      ((getCell V2.calcSheet (13 + i.val) 3).map CellData.value)
          = some (.str ("=A" ++ toString (13 + i.val) ++ "*$B$6*24")) ∧
      ((getCell V2.calcSheet (13 + i.val) 4).map CellData.value)
          = some (.str ("=A" ++ toString (13 + i.val) ++ "*$B$5*36")) ∧
      ((getCell V2.calcSheet (13 + i.val) 5).map CellData.value)
          = some (.str ("=A" ++ toString (13 + i.val) ++ "*$B$6*36")) ∧
      ((getCell V2.calcSheet (13 + i.val) 6).map CellData.value)
          = some (.str ("=E" ++ toString (13 + i.val) ++ "-B" ++ toString (13 + i.val))) ∧
      ((getCell V2.calcSheet (13 + i.val) 7).map CellData.value)
          = some (.str ("=A" ++ toString (13 + i.val) ++ "*($B$5+$B$6)/2")) := by
  decide

theorem lookupCell_none_of_bound (cells : List ((Nat × Nat) × CellData)) (b r c : Nat)
    (hall : cells.all (fun e => decide (e.1.1 ≤ b)) = true) (hr : b < r) :
    lookupCell cells r c = none := by
  induction cells with
  | nil => rfl
  | cons e t ih =>
    obtain ⟨⟨rr, cc⟩, d⟩ := e
    rw [List.all_cons, Bool.and_eq_true] at hall
    have hrr : rr ≤ b := of_decide_eq_true hall.1
    rw [lookupCell, if_neg ?_]
    · exact ih hall.2
    · intro he
      injection he with he1 he2
      omega

/-- C10: in the Growth Projections sheet, the chart-helper cells at rows 5-9
hold exactly the formulas "=F{11+i}", "=F{20+i}" and "=F{29+i}" in columns 9,
10 and 11, and those hardcoded row numbers coincide exactly with the rows at
which the scenario tables write their ARR formulas "=E r *12" into column 6:
such a formula sits at row r iff r is one of 11-15, 20-24 or 29-33. -/
theorem c10_growth_chart_helper_alignment :
    (∀ i : Fin 5,
      ((getCell V2.growthSheet (5 + i.val) 9).map CellData.value)
          = some (.str ("=F" ++ toString (11 + i.val))) ∧
      ((getCell V2.growthSheet (5 + i.val) 10).map CellData.value)
          = some (.str ("=F" ++ toString (20 + i.val))) ∧
      ((getCell V2.growthSheet (5 + i.val) 11).map CellData.value)
          = some (.str ("=F" ++ toString (29 + i.val))) ∧
      ((getCell V2.growthSheet (11 + i.val) 6).map CellData.value)
          = some (.str ("=E" ++ toString (11 + i.val) ++ "*12")) ∧
      ((getCell V2.growthSheet (20 + i.val) 6).map CellData.value)
          = some (.str ("=E" ++ toString (20 + i.val) ++ "*12")) ∧
      ((getCell V2.growthSheet (29 + i.val) 6).map CellData.value)
          = some (.str ("=E" ++ toString (29 + i.val) ++ "*12"))) ∧
    (∀ r : Nat,
      (((getCell V2.growthSheet r 6).map CellData.value)
          = some (.str ("=E" ++ toString r ++ "*12"))) ↔ r ∈ arrDataRows) := by
  constructor
  · decide
  · intro r
    rcases Nat.lt_or_ge r 40 with hr | hr
    · interval_cases r <;> decide
    · have hnone : getCell V2.growthSheet r 6 = none :=
        lookupCell_none_of_bound _ 39 r 6 (by decide) (by omega)
      rw [hnone]
      simp [arrDataRows]
      omega
